import Mathlib

/-!
Verification development for the Schemata schema compiler
(`schemata/parser.py` and `schemata/structures.py`).

The parser is a hand-written recursive-descent parser over a string with a
mutable cursor (`Marker`).  We embed the text as `List Char` and every parsing
routine as a pure function from the text and a cursor position to a result
carrying the new position.  Python's three ways out of a routine are modelled
by `PResult`:

  * returning a value                      -> `PResult.ok`
  * raising `SchemataParsingError(msg)`    -> `PResult.err msg`
  * non-termination of an unguarded loop / recursion -> `PResult.fuelOut`
    (loops that Python runs unboundedly take a fuel parameter here)
  * crashing with a non-parse exception such as `AttributeError`
    (e.g. `None.setIsUsed()`), or behaviour that depends on the file system
    (import loading), which is outside this embedding -> `PResult.crash`

Python's `None`-for-"no match" is `Option`.  Whenever a routine can move the
marker even though it reports "no match" (which several routines do), the
result carries the new position alongside the `Option`.
-/

namespace Schemata

/-- The input text, as a list of characters. -/
abbrev Text := List Char

/-- Embeds `cut(text, startIndex, length)` from `parser.py`: the slice
`text[startIndex : startIndex + length]`. -/
def cut (t : Text) (startIndex : Nat) (length : Nat := 1) : Text :=
  (t.drop startIndex).take length

/-- Result of a parsing routine: a value, a raised `SchemataParsingError`
carrying its message, exhaustion of the fuel that stands in for Python's
unbounded loops, or an abnormal termination (non-parse exception / file-system
interaction not modelled here). -/
inductive PResult (α : Type) where
  | ok (v : α)
  | err (msg : Text)
  | fuelOut
  | crash
deriving Repr

/-- Decimal rendering of a natural number, as produced by Python's `str`.
The auxiliary fuel makes the recursion structural so that terms reduce
definitionally; `natToChars` always supplies enough fuel. -/
def natToCharsAux : Nat → Nat → List Char
  | 0, _ => []
  | fuel + 1, n => if n < 10 then [Nat.digitChar n]
      else natToCharsAux fuel (n / 10) ++ [Nat.digitChar (n % 10)]

/-- Decimal rendering of a natural number (Python `str(n)` for `n >= 0`). -/
def natToChars (n : Nat) : List Char := natToCharsAux (n + 1) n

/-- Message of the form `Expected <what> at position <p>.` used by most raise
sites in `parser.py`. -/
def expectedAtPositionMsg (what : Text) (p : Nat) : Text :=
  "Expected ".toList ++ what ++ " at position ".toList ++ natToChars p ++ ".".toList

/-- Message `Expected a path string at <p>.` raised by `_parseImportStatement`. -/
def pathStringMsg (p : Nat) : Text :=
  "Expected a path string at ".toList ++ natToChars p ++ ".".toList

/-- Message `Separators must be the same throughout a list (position <p>).`
raised by `_parseSubelementList`. -/
def separatorsMsg (p : Nat) : Text :=
  "Separators must be the same throughout a list (position ".toList
    ++ natToChars p ++ ").".toList

/-- Message `A structure with the reference '<r>' has already been defined.`
raised by `_parseStructures`; it carries no character offset. -/
def duplicateReferenceMsg (r : Text) : Text :=
  "A structure with the reference \x27".toList ++ r
    ++ "\x27 has already been defined.".toList

/-- Message `'<n>' is not a valid Schemata property name.` raised by
`_parseProperty`; it carries no character offset. -/
def invalidPropertyNameMsg (n : Text) : Text :=
  "\x27".toList ++ n ++ "\x27 is not a valid Schemata property name.".toList

/-- Message `Expected <what> for property '<n>'.` raised by `_parseProperty`
when a confirmed property name is not followed by a value of the right type;
it carries no character offset. -/
def propertyValueMsg (what : Text) (n : Text) : Text :=
  "Expected ".toList ++ what ++ " for property \x27".toList ++ n ++ "\x27.".toList

/-! ## Character classes (`Parser._propertyNameCharacters` etc.) -/

/-- `Parser._referenceCharacters`. -/
def referenceCharacters : Text :=
  "ABCDEFGHIJKLMNOPQRSTUVWXYZabcdefghijklmnopqrstuvwxyz0123456789_-".toList

/-- `Parser._propertyNameCharacters` (same set as `referenceCharacters`). -/
def propertyNameCharacters : Text :=
  "ABCDEFGHIJKLMNOPQRSTUVWXYZabcdefghijklmnopqrstuvwxyz0123456789_-".toList

/-- The white-space characters of `_parseWhiteSpace` (`" \t\n"`). -/
def whiteSpaceCharacters : Text := " \t\n".toList

/-- The digit characters of `_parseInteger` (`"0123456789"`). -/
def digitCharacters : Text := "0123456789".toList

/-- `Parser._operators`. -/
def operators : List String := ["=", ">", ">=", "<", "<=", "/="]

/-- `Parser._negatedOperators`. -/
def negatedOperators : List String := ["=", "<", "<=", ">", ">=", "/="]

/-- `Parser._operators` sorted by length, longest first, as computed by
`sorted(self._operators, key=lambda o: len(o), reverse=True)` in
`_parseOperator` (Python's sort is stable). -/
def operatorsByLength : List String := [">=", "<=", "/=", "=", ">", "<"]

/-- The negation of a prefix operator, as computed in `_parseNExpression`:
`o1b = self._negatedOperators[self._operators.index(o1)]`. -/
def negateOperator (o : String) : String :=
  match operators.findIdx? (fun x => x = o) with
  | some i => negatedOperators.getD i o
  | none => o

/-! ## Lexical scanners

Each scanner embeds one `while marker.position < len(inputText)` loop of
`parser.py` as a `takeWhile` over the text after the cursor; on "no match" the
cursor is unchanged, which the Python loops also guarantee. -/

/-- `_parseWhiteSpace`: consume a maximal run of space/tab/newline and return
the new position.  (The consumed text, which the Python function returns, is
used by no caller, so only the position is returned here.) -/
def parseWhiteSpace (t : Text) (p : Nat) : Nat :=
  p + ((t.drop p).takeWhile (fun c => whiteSpaceCharacters.contains c)).length

/-- `_parseReference`: maximal run of reference characters; `none` if the run
is empty. -/
def parseReference (t : Text) (p : Nat) : Option Text × Nat :=
  let tok := (t.drop p).takeWhile (fun c => referenceCharacters.contains c)
  if tok.length = 0 then (none, p) else (some tok, p + tok.length)

/-- `_parsePropertyName`: maximal run of property-name characters; `none` if
the run is empty. -/
def parsePropertyName (t : Text) (p : Nat) : Option Text × Nat :=
  let tok := (t.drop p).takeWhile (fun c => propertyNameCharacters.contains c)
  if tok.length = 0 then (none, p) else (some tok, p + tok.length)

/-- The numeric value of a run of digits, as computed by Python's `int`. -/
def digitsToNat (ds : Text) : Nat :=
  ds.foldl (fun a c => 10 * a + (c.toNat - 48)) 0

/-- `_parseInteger`: maximal run of digits; `none` if the run is empty. -/
def parseInteger (t : Text) (p : Nat) : Option Nat × Nat :=
  let tok := (t.drop p).takeWhile (fun c => digitCharacters.contains c)
  if tok.length = 0 then (none, p) else (some (digitsToNat tok), p + tok.length)

/-- `_parseBoolean`: literal `true` or `false`. -/
def parseBoolean (t : Text) (p : Nat) : Option Bool × Nat :=
  if cut t p 4 = "true".toList then (some true, p + 4)
  else if cut t p 5 = "false".toList then (some false, p + 5)
  else (none, p)

/-- One step of `_parseOperator`: try each operator of `operatorsByLength` in
order against the current position. -/
def parseOperatorAux (t : Text) (p : Nat) : List String → Option String × Nat
  | [] => (none, p)
  | o :: os =>
      if cut t p o.toList.length = o.toList then (some o, p + o.toList.length)
      else parseOperatorAux t p os

/-- `_parseOperator`: the first (longest-first) operator present at the
current position. -/
def parseOperator (t : Text) (p : Nat) : Option String × Nat :=
  parseOperatorAux t p operatorsByLength

/-- The body scan of `_parseString`: characters until the closing quote
`q`.  `some (body, consumed)` if the closing quote was found (`consumed`
includes it); `none` if the input ended first. -/
def stringBody (q : Char) : Text → Option (Text × Nat)
  | [] => none
  | c :: cs =>
      if c = q then some ([], 1)
      else match stringBody q cs with
        | some (body, k) => some (c :: body, k + 1)
        | none => none

/-- The single-quote character. -/
def singleQuoteChar : Char := '\u0027'

/-- `_parseString`: a single- or double-quoted string with no escape
processing; raises `Expected <quote> at position <len>.` when the closing
quote is missing (by then the Python loop has moved the marker to the end of
the input). -/
def parseString (t : Text) (p : Nat) : PResult (Option Text × Nat) :=
  if cut t p 1 = "\x27".toList then
    match stringBody singleQuoteChar (t.drop (p + 1)) with
    | some (body, k) => .ok (some body, p + 1 + k)
    | none => .err (expectedAtPositionMsg "\x27".toList t.length)
  else if cut t p 1 = "\"".toList then
    match stringBody '"' (t.drop (p + 1)) with
    | some (body, k) => .ok (some body, p + 1 + k)
    | none => .err (expectedAtPositionMsg "\"".toList t.length)
  else .ok (none, p)

/-- The body scan of `_parseComment`: characters until the closing `*/`.
`some (body, consumed)` if the closing token was found (`consumed` includes
its two characters); `none` if the input ended first. -/
def commentBody : Text → Option (Text × Nat)
  | [] => none
  | [_] => none
  | c1 :: c2 :: rest =>
      if c1 = '*' ∧ c2 = '/' then some ([], 2)
      else match commentBody (c2 :: rest) with
        | some (body, k) => some (c1 :: body, k + 1)
        | none => none

/-- `_parseComment`: a `/*  */` comment; returns the enclosed text, raises
`Expected '*/' at position <len>.` if unterminated, and consumes nothing when
there is no `/*` at the current position. -/
def parseComment (t : Text) (p : Nat) : PResult (Option Text × Nat) :=
  if cut t p 2 = "/*".toList then
    match commentBody (t.drop (p + 2)) with
    | some (body, k) => .ok (some body, p + 2 + k)
    | none => .err (expectedAtPositionMsg "\x27*/\x27".toList t.length)
  else .ok (none, p)

/-! ## Usage references (`structures.py`) and their parsers -/

/-- `ElementUsageReference` (`structures.py`): reference plus occurrence
bounds.  `__init__` sets `nExpression = None` and both occurrence numbers
to 1.  The bounds are integers because `-1` denotes an unbounded maximum. -/
structure ElementUsageReference where
  elementStructureReference : Text := []
  nExpression : Option (List (String × Nat)) := none
  minimumNumberOfOccurrences : Int := 1
  maximumNumberOfOccurrences : Int := 1
deriving Repr, DecidableEq

/-- `AttributeUsageReference` (`structures.py`).  (`defaultValue` exists on
the Python class but is never assigned by the parser, so it is omitted.) -/
structure AttributeUsageReference where
  attributeStructureReference : Text := []
  isOptional : Bool := false
deriving Repr, DecidableEq

/-- `PropertyUsageReference` (`structures.py`).  (`defaultValue` exists on
the Python class but is never assigned by the parser, so it is omitted.) -/
structure PropertyUsageReference where
  propertyStructureReference : Text := []
  isOptional : Bool := false
deriving Repr, DecidableEq

/-- One comparison of the `nExpression` application loop at the end of
`_parseElementUsageReference` (lines 1278-1290): each operator updates the
minimum and/or maximum number of occurrences. -/
def applyComparison (eur : ElementUsageReference) (c : String × Nat) :
    ElementUsageReference :=
  let eur := if c.1 = ">=" then
      { eur with minimumNumberOfOccurrences := (c.2 : Int) } else eur
  let eur := if c.1 = ">" then
      { eur with minimumNumberOfOccurrences := (c.2 : Int) + 1 } else eur
  let eur := if c.1 = "<=" then
      { eur with maximumNumberOfOccurrences := (c.2 : Int) } else eur
  let eur := if c.1 = "<" then
      { eur with maximumNumberOfOccurrences := (c.2 : Int) - 1 } else eur
  if c.1 = "=" then
      { eur with minimumNumberOfOccurrences := (c.2 : Int),
                 maximumNumberOfOccurrences := (c.2 : Int) } else eur

/-- The `nExpression` application loop of `_parseElementUsageReference`. -/
def applyNExpression (eur : ElementUsageReference) (e : List (String × Nat)) :
    ElementUsageReference :=
  e.foldl applyComparison eur

/-- The part of `_parseNExpression` from the check for the variable `n`
(line 1467) onwards.  `q` is the position after the whitespace of line 1464
and `pre` is the prefix `(o1, n1)` when an integer and operator were found
before the `n`. -/
def nExpressionTail (t : Text) (q : Nat) (pre : Option (String × Nat)) :
    PResult (Option (List (String × Nat)) × Nat) :=
  if cut t q 1 = "n".toList then
    let q1 := parseWhiteSpace t (q + 1)
    match parseOperator t q1 with
    | (none, _) => .err (expectedAtPositionMsg "an operator".toList q1)
    | (some o2, q2) =>
        let q3 := parseWhiteSpace t q2
        match parseInteger t q3 with
        | (none, _) => .err (expectedAtPositionMsg "a number".toList q3)
        | (some n2, q4) =>
            match pre with
            | some (o1, n1) =>
                .ok (some [(negateOperator o1, n1), (o2, n2)], q4)
            | none => .ok (some [(o2, n2)], q4)
  else
    match pre with
    | none => .ok (none, q)
    | some _ => .err (expectedAtPositionMsg "\x27n\x27".toList q)

/-- `_parseNExpression`: an occurrence expression such as `n >= 0` or
`0 <= n <= 5`.  A prefix operator (the operand stands on the left of `n`) is
negated via `negateOperator` before being recorded. -/
def parseNExpression (t : Text) (p0 : Nat) :
    PResult (Option (List (String × Nat)) × Nat) :=
  let p1 := parseWhiteSpace t p0
  match parseInteger t p1 with
  | (none, _) =>
      let p2 := parseWhiteSpace t p1
      nExpressionTail t (parseWhiteSpace t p2) none
  | (some n1, p2) =>
      let p3 := parseWhiteSpace t p2
      match parseOperator t p3 with
      | (none, _) => .err (expectedAtPositionMsg "an operator".toList p3)
      | (some o1, p4) => nExpressionTail t (parseWhiteSpace t p4) (some (o1, n1))

/-- `_parseElementUsageReference`: a reference with an optional parenthesised
`optional` keyword or n-expression.  Opening the parenthesis first resets the
bounds to minimum 0 and maximum -1 (lines 1247-1248); the parsed n-expression
is then folded over those bounds. -/
def parseElementUsageReference (t : Text) (p0 : Nat) :
    PResult (Option ElementUsageReference × Nat) :=
  let p1 := parseWhiteSpace t p0
  match parseReference t p1 with
  | (none, _) => .ok (none, parseWhiteSpace t p1)
  | (some r, p2) =>
      let p3 := parseWhiteSpace t p2
      if cut t p3 1 = "(".toList then
        let p4 := parseWhiteSpace t (p3 + 1)
        match parseNExpression t p4 with
        | .err m => .err m
        | .fuelOut => .fuelOut
        | .crash => .crash
        | .ok (some e, p5) =>
            if cut t p5 1 = ")".toList then
              .ok (some (applyNExpression
                { elementStructureReference := r, nExpression := some e,
                  minimumNumberOfOccurrences := 0,
                  maximumNumberOfOccurrences := -1 } e), p5 + 1)
            else .err (expectedAtPositionMsg "\x27)\x27".toList p5)
        | .ok (none, p5) =>
            if cut t p5 8 = "optional".toList then
              let p6 := parseWhiteSpace t (p5 + 8)
              if cut t p6 1 = ")".toList then
                .ok (some (applyNExpression
                  { elementStructureReference := r,
                    nExpression := some [(">=", 0), ("<=", 1)],
                    minimumNumberOfOccurrences := 0,
                    maximumNumberOfOccurrences := -1 } [(">=", 0), ("<=", 1)]),
                  p6 + 1)
              else .err (expectedAtPositionMsg "\x27)\x27".toList p6)
            else .err (expectedAtPositionMsg "expression or keyword".toList p5)
      else .ok (some { elementStructureReference := r }, p3)

/-- `_parseAttributeUsageReference`: a reference optionally followed by
`(optional)`. -/
def parseAttributeUsageReference (t : Text) (p0 : Nat) :
    PResult (Option AttributeUsageReference × Nat) :=
  let p1 := parseWhiteSpace t p0
  match parseReference t p1 with
  | (none, _) => .ok (none, parseWhiteSpace t p1)
  | (some r, p2) =>
      let p3 := parseWhiteSpace t p2
      if cut t p3 1 = "(".toList then
        let p4 := parseWhiteSpace t (p3 + 1)
        if cut t p4 8 = "optional".toList then
          let p5 := parseWhiteSpace t (p4 + 8)
          if cut t p5 1 = ")".toList then
            .ok (some { attributeStructureReference := r, isOptional := true },
              p5 + 1)
          else .err (expectedAtPositionMsg "\x27)\x27".toList p5)
        else .err (expectedAtPositionMsg "keyword".toList p4)
      else .ok (some { attributeStructureReference := r }, p3)

/-- `_parsePropertyUsageReference`: a reference optionally followed by
`(optional)`. -/
def parsePropertyUsageReference (t : Text) (p0 : Nat) :
    PResult (Option PropertyUsageReference × Nat) :=
  let p1 := parseWhiteSpace t p0
  match parseReference t p1 with
  | (none, _) => .ok (none, parseWhiteSpace t p1)
  | (some r, p2) =>
      let p3 := parseWhiteSpace t p2
      if cut t p3 1 = "(".toList then
        let p4 := parseWhiteSpace t (p3 + 1)
        if cut t p4 8 = "optional".toList then
          let p5 := parseWhiteSpace t (p4 + 8)
          if cut t p5 1 = ")".toList then
            .ok (some { propertyStructureReference := r, isOptional := true },
              p5 + 1)
          else .err (expectedAtPositionMsg "\x27)\x27".toList p5)
        else .err (expectedAtPositionMsg "keyword".toList p4)
      else .ok (some { propertyStructureReference := r }, p3)

/-- `_parseAnyElementsUsageReference`: the literal `*any elements*`.  Returns
the new position on a match.  (`_parseAnyAttributesUsageReference` and
`_parseAnyPropertiesUsageReference` exist in the source but are called from
nowhere, so they are not embedded.) -/
def parseAnyElementsUsageReference (t : Text) (p : Nat) : Option Nat :=
  if cut t p 14 = "*any elements*".toList then some (p + 14) else none

/-- `_parseAnyTextUsageReference`: the literal `*any text*`. -/
def parseAnyTextUsageReference (t : Text) (p : Nat) : Option Nat :=
  if cut t p 10 = "*any text*".toList then some (p + 10) else none

/-! ## Subelement usages (`_parseSubelementUsages` / `_parseSubelementList`) -/

/-- The possible values of `ElementStructure.allowedContent`: one constructor
per Python class that can appear there (`ElementUsageReference`,
`DataUsageReference`, `AnyElementsUsageReference`, `AnyTextUsageReference`,
`OrderedStructureList`, `UnorderedStructureList`, `StructureChoice`).
A `DataUsageReference` is only produced by the post-parse disambiguation
pass. -/
inductive AllowedContent where
  | elementUsage (eur : ElementUsageReference)
  | dataUsage (dataStructureReference : Text)
  | anyElements
  | anyText
  | orderedList (structures : List AllowedContent)
  | unorderedList (structures : List AllowedContent)
  | structureChoice (structures : List AllowedContent)

/-- The whitespace-comment-whitespace sequence that `_parseSubelementList`
runs repeatedly (e.g. lines 1044-1046); the comment parse can raise. -/
def wsCommentWs (t : Text) (p : Nat) : PResult Nat :=
  let p1 := parseWhiteSpace t p
  match parseComment t p1 with
  | .ok (_, p2) => .ok (parseWhiteSpace t p2)
  | .err m => .err m
  | .fuelOut => .fuelOut
  | .crash => .crash

/-- The separator handling at the top of the `_parseSubelementList` loop
(lines 1077-1101).  Returns the (possibly updated) separator type and the
position after the separator; `none` means the `break` of the final `else`
branch (a later item with no separator in front of it). -/
def sepCheck (t : Text) (bracketType separatorType : String) (n m : Nat) :
    PResult (Option (String × Nat)) :=
  if n = 0 then .ok (some (separatorType, m))
  else
    let c := cut t m 1
    if n = 1 then
      if c = ",".toList then .ok (some ("comma", m + 1))
      else if c = "/".toList then
        if bracketType = "square" then
          .err (expectedAtPositionMsg "\x27,\x27".toList m)
        else .ok (some ("slash", m + 1))
      else .ok (some (separatorType, m))
    else
      if (separatorType = "comma" ∧ c = ",".toList)
          ∨ (separatorType = "slash" ∧ c = "/".toList) then
        .ok (some (separatorType, m + 1))
      else if (separatorType = "comma" ∧ c = "/".toList)
          ∨ (separatorType = "slash" ∧ c = ",".toList) then
        .err (separatorsMsg m)
      else .ok none

mutual

/-- `_parseSubelementUsages`: try, in order, an element usage reference, the
`*any elements*` wildcard, the `*any text*` wildcard, and a bracketed
subelement list.  The fuel bounds the recursion depth through nested lists;
every recursive call receives the predecessor fuel. -/
def parseSubelementUsages (fuel : Nat) (t : Text) (p : Nat) :
    PResult (Option AllowedContent × Nat) :=
  match fuel, t, p with
  | 0, _, _ => .fuelOut
  | fuel + 1, t, p =>
      match parseElementUsageReference t p with
      | .err e => .err e
      | .fuelOut => .fuelOut
      | .crash => .crash
      | .ok (some eur, p1) => .ok (some (.elementUsage eur), p1)
      | .ok (none, p1) =>
          match parseAnyElementsUsageReference t p1 with
          | some p2 => .ok (some (.anyElements), p2)
          | none =>
              match parseAnyTextUsageReference t p1 with
              | some p2 => .ok (some (.anyText), p2)
              | none => parseSubelementList fuel t p1
  termination_by structural fuel

/-- `_parseSubelementList`: a `{...}` or `[...]` list of subelement usages.
The function works on a copy of the marker and commits only on success, so on
"no match" the returned position is the original one. -/
def parseSubelementList (fuel : Nat) (t : Text) (p : Nat) :
    PResult (Option AllowedContent × Nat) :=
  match fuel, t, p with
  | 0, _, _ => .fuelOut
  | fuel + 1, t, p =>
      match wsCommentWs t p with
      | .err e => .err e
      | .fuelOut => .fuelOut
      | .crash => .crash
      | .ok m0 =>
          if cut t m0 1 = "\x7b".toList then
            subListFinish fuel t p "recurve" (m0 + 1)
          else if cut t m0 1 = "[".toList then
            subListFinish fuel t p "square" (m0 + 1)
          else .ok (none, p)
  termination_by structural fuel

/-- The remainder of `_parseSubelementList` after the opening bracket has
been identified: run the item loop, expect the matching closing bracket, and
build the list object determined by the bracket and separator types.
`p` is the original (uncommitted) marker position. -/
def subListFinish (fuel : Nat) (t : Text) (p : Nat) (bracketType : String)
    (m1 : Nat) : PResult (Option AllowedContent × Nat) :=
  match fuel, t, p, bracketType, m1 with
  | 0, _, _, _, _ => .fuelOut
  | fuel + 1, t, p, bracketType, m1 =>
      match wsCommentWs t m1 with
      | .err e => .err e
      | .fuelOut => .fuelOut
      | .crash => .crash
      | .ok m2 =>
          match subListLoop fuel t bracketType "comma" m2 [] 0 with
          | .err e => .err e
          | .fuelOut => .fuelOut
          | .crash => .crash
          | .ok (items, separatorType, m3) =>
              match wsCommentWs t m3 with
              | .err e => .err e
              | .fuelOut => .fuelOut
              | .crash => .crash
              | .ok m4 =>
                  if (bracketType = "recurve" ∧ cut t m4 1 = "\x7d".toList)
                      ∨ (bracketType = "square" ∧ cut t m4 1 = "]".toList) then
                    if bracketType = "square" ∧ separatorType = "comma" then
                      .ok (some (.orderedList items), m4 + 1)
                    else if bracketType = "recurve" ∧ separatorType = "comma" then
                      .ok (some (.unorderedList items), m4 + 1)
                    else if bracketType = "recurve" ∧ separatorType = "slash" then
                      .ok (some (.structureChoice items), m4 + 1)
                    else .ok (none, p)
                  else .err (expectedAtPositionMsg "closing bracket".toList m4)
  termination_by structural fuel

/-- The `while` loop of `_parseSubelementList` (lines 1071-1116): one call is
one iteration.  Returns the collected items, the final separator type, and
the position at which the loop stopped. -/
def subListLoop (fuel : Nat) (t : Text) (bracketType separatorType : String)
    (m : Nat) (items : List AllowedContent) (n : Nat) :
    PResult (List AllowedContent × String × Nat) :=
  match fuel, t, bracketType, separatorType, m, items, n with
  | 0, _, _, _, _, _, _ => .fuelOut
  | fuel + 1, t, bracketType, separatorType, m, items, n =>
      if m < t.length then
        match wsCommentWs t m with
        | .err e => .err e
        | .fuelOut => .fuelOut
        | .crash => .crash
        | .ok m1 =>
            match sepCheck t bracketType separatorType n m1 with
            | .err e => .err e
            | .fuelOut => .fuelOut
            | .crash => .crash
            | .ok none => .ok (items, separatorType, m1)
            | .ok (some (separatorType2, m2)) =>
                match wsCommentWs t m2 with
                | .err e => .err e
                | .fuelOut => .fuelOut
                | .crash => .crash
                | .ok m3 =>
                    match parseSubelementUsages fuel t m3 with
                    | .err e => .err e
                    | .fuelOut => .fuelOut
                    | .crash => .crash
                    | .ok (none, m4) => .ok (items, separatorType2, m4)
                    | .ok (some item, m4) =>
                        subListLoop fuel t bracketType separatorType2 m4
                          (items ++ [item]) (n + 1)
      else .ok (items, separatorType, m)
  termination_by structural fuel

end

/-! ## Structures (`structures.py`) -/

/-- `ListFunction` (`structures.py`): a directive `list(ref, "sep")`. -/
structure ListFunction where
  dataStructureReference : Text
  separator : Text
deriving Repr, DecidableEq

/-- A property value as returned by `_parseProperty` (Python returns a
dynamically typed `(name, value)` pair; each constructor corresponds to one
of the value grammars). -/
inductive PropertyValue where
  | ref (r : Text)
  | str (s : Text)
  | strList (ss : List Text)
  | intVal (n : Nat)
  | boolVal (b : Bool)
  | intList (ns : List Nat)
  | attributeUsageList (l : List AttributeUsageReference)
  | propertyUsageList (l : List PropertyUsageReference)
  | content (c : AllowedContent)
  | listFn (lf : ListFunction)

/-- The value of `AttributeStructure.dataStructureReference` (and of
`PropertyStructure.valueTypeReference`): a reference string, or - between
parsing and the list-function expansion pass - a `ListFunction` object. -/
inductive RefOrListFunction where
  | ref (r : Text)
  | listFn (lf : ListFunction)
deriving Repr, DecidableEq

/-- `DataStructure` (`structures.py`).  The metadata (description / example
value, extracted from comments by regular expressions) is consulted by no
claim and is not embedded; an absent reference (Python `None`) is modelled as
the empty string. -/
structure DataStructure where
  reference : Text := []
  baseStructureReference : Text := []
  isUsed : Bool := false
  allowedPattern : Text := []
  allowedValues : List Text := []
  minimumValue : Option Nat := none
  maximumValue : Option Nat := none
  defaultValue : Option PropertyValue := none

/-- `AttributeStructure` (`structures.py`). -/
structure AttributeStructure where
  reference : Text := []
  baseStructureReference : Text := []
  isUsed : Bool := false
  attributeName : Text := []
  dataStructureReference : RefOrListFunction := .ref []
  defaultValue : Option PropertyValue := none

/-- `ElementStructure` (`structures.py`). -/
structure ElementStructure where
  reference : Text := []
  baseStructureReference : Text := []
  isUsed : Bool := false
  elementName : Text := []
  canBeRootElement : Bool := false
  attributes : List AttributeUsageReference := []
  allowedContent : Option AllowedContent := none
  valueTypeReference : Text := []
  isSelfClosing : Bool := false
  lineBreaks : List Nat := [0, 1, 1, 1]

/-- `PropertyStructure` (`structures.py`). -/
structure PropertyStructure where
  reference : Text := []
  baseStructureReference : Text := []
  isUsed : Bool := false
  propertyName : Text := []
  valueTypeReference : RefOrListFunction := .ref []

/-- `ArrayStructure` (`structures.py`). -/
structure ArrayStructure where
  reference : Text := []
  baseStructureReference : Text := []
  isUsed : Bool := false
  itemTypeReference : Text := []

/-- `ObjectStructure` (`structures.py`). -/
structure ObjectStructure where
  reference : Text := []
  baseStructureReference : Text := []
  isUsed : Bool := false
  canBeRootObject : Bool := false
  properties : List PropertyUsageReference := []

/-- A structure: one constructor per concrete subclass of the Python
`Structure` base class. -/
inductive Structure where
  | data (d : DataStructure)
  | attr (a : AttributeStructure)
  | element (e : ElementStructure)
  | prop (ps : PropertyStructure)
  | array (a : ArrayStructure)
  | obj (o : ObjectStructure)

/-- `Structure.reference`. -/
def Structure.reference : Structure → Text
  | .data d => d.reference
  | .attr a => a.reference
  | .element e => e.reference
  | .prop ps => ps.reference
  | .array a => a.reference
  | .obj o => o.reference

/-- `Structure.baseStructureReference`. -/
def Structure.baseStructureReference : Structure → Text
  | .data d => d.baseStructureReference
  | .attr a => a.baseStructureReference
  | .element e => e.baseStructureReference
  | .prop ps => ps.baseStructureReference
  | .array a => a.baseStructureReference
  | .obj o => o.baseStructureReference

/-- `Structure.isUsed`. -/
def Structure.isUsed : Structure → Bool
  | .data d => d.isUsed
  | .attr a => a.isUsed
  | .element e => e.isUsed
  | .prop ps => ps.isUsed
  | .array a => a.isUsed
  | .obj o => o.isUsed

/-- Setting `isUsed = True` on a structure (the mutation performed by
`Structure.setIsUsed`). -/
def Structure.setUsedTrue : Structure → Structure
  | .data d => .data { d with isUsed := true }
  | .attr a => .attr { a with isUsed := true }
  | .element e => .element { e with isUsed := true }
  | .prop ps => .prop { ps with isUsed := true }
  | .array a => .array { a with isUsed := true }
  | .obj o => .obj { o with isUsed := true }

/-! ## Property parsing (`_parseProperty`, `_parseList`, `_parseListFunction`) -/

/-- `Parser._propertyNames`: the fixed list of recognised property names. -/
def propertyNames : List Text :=
  ["baseType".toList, "tagName".toList, "allowedPattern".toList,
   "allowedValues".toList, "minimumValue".toList, "maximumValue".toList,
   "defaultValue".toList, "valueType".toList, "attributes".toList,
   "allowedContent".toList, "itemType".toList, "properties".toList,
   "isSelfClosing".toList, "lineBreaks".toList]

/-- `_parseListFunction`: the directive `list(<reference>, "<separator>")`.
Once the leading `list` keyword has been seen the rest is committed: any
deviation raises. -/
def parseListFunction (t : Text) (p0 : Nat) : PResult (Option ListFunction × Nat) :=
  let p1 := parseWhiteSpace t p0
  if cut t p1 4 = "list".toList then
    let p2 := parseWhiteSpace t (p1 + 4)
    if cut t p2 1 = "(".toList then
      let p3 := parseWhiteSpace t (p2 + 1)
      match parseReference t p3 with
      | (none, _) => .err (expectedAtPositionMsg "a reference".toList p3)
      | (some r, p4) =>
          let p5 := parseWhiteSpace t p4
          if cut t p5 1 = ",".toList then
            let p6 := parseWhiteSpace t (p5 + 1)
            match parseString t p6 with
            | .err e => .err e
            | .fuelOut => .fuelOut
            | .crash => .crash
            | .ok (none, _) => .err (expectedAtPositionMsg "a string".toList p6)
            | .ok (some sep, p7) =>
                let p8 := parseWhiteSpace t p7
                if cut t p8 1 = ")".toList then
                  .ok (some { dataStructureReference := r, separator := sep }, p8 + 1)
                else .err (expectedAtPositionMsg "\x27)\x27".toList p8)
          else .err (expectedAtPositionMsg "\x27,\x27".toList p5)
    else .err (expectedAtPositionMsg "\x27(\x27".toList p2)
  else .ok (none, p1)

/-- The `while` loop of `_parseList` (lines 1521-1553), parameterised by the
item parser that the Python code selects from its `objectType` string:
comma-separated items until something that is not a valid item. -/
def parseListLoop (itemP : Text → Nat → PResult (Option α × Nat)) :
    Nat → Text → Nat → List α → Nat → PResult (Option (List α) × Nat)
  | 0, _, _, _, _ => .fuelOut
  | fuel + 1, t, p, items, n =>
      if p < t.length then
        let p1 := parseWhiteSpace t p
        if n > 0 ∧ ¬ (cut t p1 1 = ",".toList) then .ok (some items, p1)
        else
          let p2 := if n > 0 then p1 + 1 else p1
          let p3 := parseWhiteSpace t p2
          match itemP t p3 with
          | .err e => .err e
          | .fuelOut => .fuelOut
          | .crash => .crash
          | .ok (none, p4) =>
              if n = 0 then .ok (none, p4) else .ok (some items, p4)
          | .ok (some it, p4) => parseListLoop itemP fuel t p4 (items ++ [it]) (n + 1)
      else
        if n = 0 then .ok (none, p) else .ok (some items, p)

/-- `_parseList`: a comma-separated list of items; `none` when no item at all
was found. -/
def parseList (itemP : Text → Nat → PResult (Option α × Nat)) (fuel : Nat)
    (t : Text) (p : Nat) : PResult (Option (List α) × Nat) :=
  parseListLoop itemP fuel t p [] 0

/-- `_parseInteger` wrapped in the uniform result type, for use as a
`_parseList` item parser (`objectType == "integer"`). -/
def parseIntegerItem (t : Text) (p : Nat) : PResult (Option Nat × Nat) :=
  .ok (parseInteger t p)

/-- The value grammar that `_parseProperty` expects after `<name>:`,
determined by the property name (which has already been checked to be one of
`propertyNames`). -/
def parsePropertyValue (fuel : Nat) (t : Text) (p : Nat) (name : Text) :
    PResult (PropertyValue × Nat) :=
  if name = "baseType".toList then
    match parseReference t p with
    | (none, _) => .err (propertyValueMsg "a reference".toList name)
    | (some r, pp) => .ok (.ref r, pp)
  else if name = "tagName".toList then
    match parseString t p with
    | .err e => .err e
    | .fuelOut => .fuelOut
    | .crash => .crash
    | .ok (none, _) => .err (propertyValueMsg "a string".toList name)
    | .ok (some s, pp) => .ok (.str s, pp)
  else if name = "allowedPattern".toList then
    match parseString t p with
    | .err e => .err e
    | .fuelOut => .fuelOut
    | .crash => .crash
    | .ok (none, _) => .err (propertyValueMsg "a string".toList name)
    | .ok (some s, pp) => .ok (.str s, pp)
  else if name = "allowedValues".toList then
    match parseList parseString fuel t p with
    | .err e => .err e
    | .fuelOut => .fuelOut
    | .crash => .crash
    | .ok (none, _) => .err (propertyValueMsg "a list of values".toList name)
    | .ok (some ss, pp) => .ok (.strList ss, pp)
  else if name = "minimumValue".toList then
    match parseInteger t p with
    | (none, _) => .err (propertyValueMsg "an integer".toList name)
    | (some nv, pp) => .ok (.intVal nv, pp)
  else if name = "maximumValue".toList then
    match parseInteger t p with
    | (none, _) => .err (propertyValueMsg "an integer".toList name)
    | (some nv, pp) => .ok (.intVal nv, pp)
  else if name = "defaultValue".toList then
    match parseString t p with
    | .err e => .err e
    | .fuelOut => .fuelOut
    | .crash => .crash
    | .ok (some s, pp) => .ok (.str s, pp)
    | .ok (none, _) =>
        match parseInteger t p with
        | (some nv, pp) => .ok (.intVal nv, pp)
        | (none, _) =>
            match parseBoolean t p with
            | (some b, pp) => .ok (.boolVal b, pp)
            | (none, _) =>
                .err (propertyValueMsg "a string, integer, or boolean".toList name)
  else if name = "valueType".toList then
    match parseListFunction t p with
    | .err e => .err e
    | .fuelOut => .fuelOut
    | .crash => .crash
    | .ok (some lf, pp) => .ok (.listFn lf, pp)
    | .ok (none, p1) =>
        match parseReference t p1 with
        | (none, _) => .err (propertyValueMsg "a reference".toList name)
        | (some r, pp) => .ok (.ref r, pp)
  else if name = "itemType".toList then
    match parseReference t p with
    | (none, _) => .err (propertyValueMsg "a reference".toList name)
    | (some r, pp) => .ok (.ref r, pp)
  else if name = "attributes".toList then
    match parseList parseAttributeUsageReference fuel t p with
    | .err e => .err e
    | .fuelOut => .fuelOut
    | .crash => .crash
    | .ok (none, _) =>
        .err (propertyValueMsg "an attribute usage reference list".toList name)
    | .ok (some l, pp) => .ok (.attributeUsageList l, pp)
  else if name = "properties".toList then
    match parseList parsePropertyUsageReference fuel t p with
    | .err e => .err e
    | .fuelOut => .fuelOut
    | .crash => .crash
    | .ok (none, _) =>
        .err (propertyValueMsg "a property usage reference list".toList name)
    | .ok (some l, pp) => .ok (.propertyUsageList l, pp)
  else if name = "allowedContent".toList then
    match parseSubelementUsages fuel t p with
    | .err e => .err e
    | .fuelOut => .fuelOut
    | .crash => .crash
    | .ok (none, _) =>
        .err (propertyValueMsg "a structure usage reference or structure list".toList name)
    | .ok (some c, pp) => .ok (.content c, pp)
  else if name = "isSelfClosing".toList then
    match parseBoolean t p with
    | (none, _) => .err (propertyValueMsg "a boolean".toList name)
    | (some b, pp) => .ok (.boolVal b, pp)
  else if name = "lineBreaks".toList then
    match parseList parseIntegerItem fuel t p with
    | .err e => .err e
    | .fuelOut => .fuelOut
    | .crash => .crash
    | .ok (none, _) => .err (propertyValueMsg "a list of integers".toList name)
    | .ok (some ns, pp) => .ok (.intList ns, pp)
  else .err (propertyValueMsg "a value".toList name)

/-- `_parseProperty`: `<name> : <value> ;`.  A missing colon is a silent
"no property" (with the marker already moved past the name); an unrecognised
name, a value of the wrong type, or a missing semicolon raises. -/
def parseProperty (fuel : Nat) (t : Text) (p0 : Nat) :
    PResult (Option (Text × PropertyValue) × Nat) :=
  let p1 := parseWhiteSpace t p0
  match parsePropertyName t p1 with
  | (none, _) => .ok (none, p1)
  | (some name, p2) =>
      if ¬ (propertyNames.contains name) then .err (invalidPropertyNameMsg name)
      else
        let p3 := parseWhiteSpace t p2
        if cut t p3 1 = ":".toList then
          let p4 := parseWhiteSpace t (p3 + 1)
          match parsePropertyValue fuel t p4 name with
          | .err e => .err e
          | .fuelOut => .fuelOut
          | .crash => .crash
          | .ok (v, p5) =>
              let p6 := parseWhiteSpace t p5
              if cut t p6 1 = ";".toList then .ok (some (name, v), p6 + 1)
              else .err (expectedAtPositionMsg "\x27;\x27".toList p6)
        else .ok (none, p3)

/-! ## Structure definitions (`_parseDataStructure` ... `_parseStructures`)

The six structure parsers share one body shape (reference, `{`, optional
metadata comment, property loop, `}`); they differ only in which properties
they apply to the structure being built.  `parseStructureCommon` embeds that
shared shape, parameterised by the per-class property application. -/

/-- Application of a parsed property to a `DataStructure`
(`_parseDataStructure` lines 364-373). -/
def applyDataStructureProperty (ds : DataStructure) (name : Text)
    (v : PropertyValue) : DataStructure :=
  if name = "baseType".toList then
    match v with | .ref r => { ds with baseStructureReference := r } | _ => ds
  else if name = "allowedPattern".toList then
    match v with | .str s => { ds with allowedPattern := s } | _ => ds
  else if name = "allowedValues".toList then
    match v with | .strList ss => { ds with allowedValues := ss } | _ => ds
  else if name = "minimumValue".toList then
    match v with | .intVal n => { ds with minimumValue := some n } | _ => ds
  else if name = "maximumValue".toList then
    match v with | .intVal n => { ds with maximumValue := some n } | _ => ds
  else ds

/-- Application of a parsed property to an `AttributeStructure`
(`_parseAttributeStructure` lines 438-445). -/
def applyAttributeStructureProperty (a : AttributeStructure) (name : Text)
    (v : PropertyValue) : AttributeStructure :=
  if name = "baseType".toList then
    match v with | .ref r => { a with baseStructureReference := r } | _ => a
  else if name = "tagName".toList then
    match v with | .str s => { a with attributeName := s } | _ => a
  else if name = "valueType".toList then
    match v with
    | .ref r => { a with dataStructureReference := .ref r }
    | .listFn lf => { a with dataStructureReference := .listFn lf }
    | _ => a
  else if name = "defaultValue".toList then
    { a with defaultValue := some v }
  else a

/-- Application of a parsed property to an `ElementStructure`
(`_parseElementStructure` lines 515-526). -/
def applyElementStructureProperty (e : ElementStructure) (name : Text)
    (v : PropertyValue) : ElementStructure :=
  if name = "baseType".toList then
    match v with | .ref r => { e with baseStructureReference := r } | _ => e
  else if name = "tagName".toList then
    match v with | .str s => { e with elementName := s } | _ => e
  else if name = "attributes".toList then
    match v with | .attributeUsageList l => { e with attributes := l } | _ => e
  else if name = "allowedContent".toList then
    match v with | .content c => { e with allowedContent := some c } | _ => e
  else if name = "isSelfClosing".toList then
    match v with | .boolVal b => { e with isSelfClosing := b } | _ => e
  else if name = "lineBreaks".toList then
    match v with | .intList ns => { e with lineBreaks := ns } | _ => e
  else e

/-- Application of a parsed property to a `PropertyStructure`
(`_parsePropertyStructure` lines 596-599). -/
def applyPropertyStructureProperty (ps : PropertyStructure) (name : Text)
    (v : PropertyValue) : PropertyStructure :=
  if name = "tagName".toList then
    match v with | .str s => { ps with propertyName := s } | _ => ps
  else if name = "valueType".toList then
    match v with
    | .ref r => { ps with valueTypeReference := .ref r }
    | .listFn lf => { ps with valueTypeReference := .listFn lf }
    | _ => ps
  else ps

/-- Application of a parsed property to an `ArrayStructure`
(`_parseArrayStructure` lines 669-672). -/
def applyArrayStructureProperty (a : ArrayStructure) (name : Text)
    (v : PropertyValue) : ArrayStructure :=
  if name = "baseType".toList then
    match v with | .ref r => { a with baseStructureReference := r } | _ => a
  else if name = "itemType".toList then
    match v with | .ref r => { a with itemTypeReference := r } | _ => a
  else a

/-- Application of a parsed property to an `ObjectStructure`
(`_parseObjectStructure` lines 737-740). -/
def applyObjectStructureProperty (o : ObjectStructure) (name : Text)
    (v : PropertyValue) : ObjectStructure :=
  if name = "baseType".toList then
    match v with | .ref r => { o with baseStructureReference := r } | _ => o
  else if name = "properties".toList then
    match v with | .propertyUsageList l => { o with properties := l } | _ => o
  else o

/-- The property loop shared by all six structure parsers
(`while marker.position < len(inputText): p = self._parseProperty(...)`). -/
def propertyLoop (applyP : α → Text → PropertyValue → α) :
    Nat → Text → Nat → α → PResult (α × Nat)
  | 0, _, _, _ => .fuelOut
  | fuel + 1, t, p, acc =>
      if p < t.length then
        match parseProperty fuel t p with
        | .err e => .err e
        | .fuelOut => .fuelOut
        | .crash => .crash
        | .ok (none, p1) => .ok (acc, p1)
        | .ok (some (name, v), p1) =>
            propertyLoop applyP fuel t p1 (applyP acc name v)
      else .ok (acc, p)

/-- The body shape shared by the six structure parsers: reference, mandatory
`{`, optional metadata comment (its regex extraction is consulted by no claim
and is not embedded), property loop, mandatory `}`.  An absent reference
(Python assigns `None`) is modelled as the empty string. -/
def parseStructureCommon (init : Text → α) (applyP : α → Text → PropertyValue → α)
    (fuel : Nat) (t : Text) (p0 : Nat) : PResult (α × Nat) :=
  let p1 := parseWhiteSpace t p0
  match parseReference t p1 with
  | (refOpt, p2) =>
      let p3 := parseWhiteSpace t p2
      let acc := init (refOpt.getD [])
      if cut t p3 1 = "\x7b".toList then
        let p4 := parseWhiteSpace t (p3 + 1)
        match parseComment t p4 with
        | .err e => .err e
        | .fuelOut => .fuelOut
        | .crash => .crash
        | .ok (_, p5) =>
            let p6 := parseWhiteSpace t p5
            match propertyLoop applyP fuel t p6 acc with
            | .err e => .err e
            | .fuelOut => .fuelOut
            | .crash => .crash
            | .ok (acc2, p7) =>
                let p8 := parseWhiteSpace t p7
                if cut t p8 1 = "\x7d".toList then .ok (acc2, p8 + 1)
                else .err (expectedAtPositionMsg "\x27\x7d\x27".toList p8)
      else .err (expectedAtPositionMsg "\x27\x7b\x27".toList p3)

/-- `_parseDataStructure`. -/
def parseDataStructure (fuel : Nat) (t : Text) (p : Nat) :
    PResult (DataStructure × Nat) :=
  parseStructureCommon (fun r => { reference := r }) applyDataStructureProperty
    fuel t p

/-- `_parseAttributeStructure`; if `tagName` was not supplied the attribute
name defaults to the structure's reference (lines 457-458). -/
def parseAttributeStructure (fuel : Nat) (t : Text) (p : Nat) :
    PResult (AttributeStructure × Nat) :=
  match parseStructureCommon (fun r => { reference := r })
      applyAttributeStructureProperty fuel t p with
  | .ok (a, pp) =>
      if a.attributeName = [] then
        .ok ({ a with attributeName := a.reference }, pp)
      else .ok (a, pp)
  | .err e => .err e
  | .fuelOut => .fuelOut
  | .crash => .crash

/-- `_parseElementStructure`; if `tagName` was not supplied the element name
defaults to the structure's reference (lines 538-539). -/
def parseElementStructure (fuel : Nat) (t : Text) (p : Nat) :
    PResult (ElementStructure × Nat) :=
  match parseStructureCommon (fun r => { reference := r })
      applyElementStructureProperty fuel t p with
  | .ok (e, pp) =>
      if e.elementName = [] then .ok ({ e with elementName := e.reference }, pp)
      else .ok (e, pp)
  | .err e => .err e
  | .fuelOut => .fuelOut
  | .crash => .crash

/-- `_parsePropertyStructure`; if `tagName` was not supplied the property
name defaults to the structure's reference (lines 611-612). -/
def parsePropertyStructure (fuel : Nat) (t : Text) (p : Nat) :
    PResult (PropertyStructure × Nat) :=
  match parseStructureCommon (fun r => { reference := r })
      applyPropertyStructureProperty fuel t p with
  | .ok (ps, pp) =>
      if ps.propertyName = [] then
        .ok ({ ps with propertyName := ps.reference }, pp)
      else .ok (ps, pp)
  | .err e => .err e
  | .fuelOut => .fuelOut
  | .crash => .crash

/-- `_parseArrayStructure`. -/
def parseArrayStructure (fuel : Nat) (t : Text) (p : Nat) :
    PResult (ArrayStructure × Nat) :=
  parseStructureCommon (fun r => { reference := r }) applyArrayStructureProperty
    fuel t p

/-- `_parseObjectStructure`. -/
def parseObjectStructure (fuel : Nat) (t : Text) (p : Nat) :
    PResult (ObjectStructure × Nat) :=
  parseStructureCommon (fun r => { reference := r }) applyObjectStructureProperty
    fuel t p

/-- `_parseStructure`: keyword dispatch to the six structure parsers; the
`root` prefix before `element` / `object` sets the root-capability flag, and
`root` followed by anything else raises. -/
def parseStructure (fuel : Nat) (t : Text) (p0 : Nat) :
    PResult (Option Structure × Nat) :=
  let p1 := parseWhiteSpace t p0
  if cut t p1 8 = "dataType".toList then
    match parseDataStructure fuel t (p1 + 8) with
    | .ok (d, pp) => .ok (some (.data d), pp)
    | .err e => .err e
    | .fuelOut => .fuelOut
    | .crash => .crash
  else if cut t p1 9 = "attribute".toList then
    match parseAttributeStructure fuel t (p1 + 9) with
    | .ok (a, pp) => .ok (some (.attr a), pp)
    | .err e => .err e
    | .fuelOut => .fuelOut
    | .crash => .crash
  else if cut t p1 4 = "root".toList then
    let p2 := parseWhiteSpace t (p1 + 4)
    if cut t p2 7 = "element".toList then
      match parseElementStructure fuel t (p2 + 7) with
      | .ok (e, pp) => .ok (some (.element { e with canBeRootElement := true }), pp)
      | .err e => .err e
      | .fuelOut => .fuelOut
      | .crash => .crash
    else if cut t p2 6 = "object".toList then
      match parseObjectStructure fuel t (p2 + 6) with
      | .ok (o, pp) => .ok (some (.obj { o with canBeRootObject := true }), pp)
      | .err e => .err e
      | .fuelOut => .fuelOut
      | .crash => .crash
    else .err (expectedAtPositionMsg "\x27element\x27 keyword".toList p2)
  else if cut t p1 7 = "element".toList then
    match parseElementStructure fuel t (p1 + 7) with
    | .ok (e, pp) => .ok (some (.element e), pp)
    | .err e => .err e
    | .fuelOut => .fuelOut
    | .crash => .crash
  else if cut t p1 8 = "property".toList then
    match parsePropertyStructure fuel t (p1 + 8) with
    | .ok (ps, pp) => .ok (some (.prop ps), pp)
    | .err e => .err e
    | .fuelOut => .fuelOut
    | .crash => .crash
  else if cut t p1 5 = "array".toList then
    match parseArrayStructure fuel t (p1 + 5) with
    | .ok (a, pp) => .ok (some (.array a), pp)
    | .err e => .err e
    | .fuelOut => .fuelOut
    | .crash => .crash
  else if cut t p1 6 = "object".toList then
    match parseObjectStructure fuel t (p1 + 6) with
    | .ok (o, pp) => .ok (some (.obj o), pp)
    | .err e => .err e
    | .fuelOut => .fuelOut
    | .crash => .crash
  else .ok (none, p1)

/-- The `while` loop of `_parseStructures`: keep parsing structures until the
end of the input, rejecting a reference that has already been defined in this
file.  When nothing matches and the position does not advance the Python loop
spins forever; the fuel makes that case a `fuelOut`. -/
def parseStructuresLoop :
    Nat → Text → Nat → List Structure → List Text → PResult (List Structure × Nat)
  | 0, _, _, _, _ => .fuelOut
  | fuel + 1, t, p, structures, references =>
      if p < t.length then
        let p1 := parseWhiteSpace t p
        match parseComment t p1 with
        | .err e => .err e
        | .fuelOut => .fuelOut
        | .crash => .crash
        | .ok (_, p2) =>
            match parseStructure fuel t p2 with
            | .err e => .err e
            | .fuelOut => .fuelOut
            | .crash => .crash
            | .ok (none, p3) => parseStructuresLoop fuel t p3 structures references
            | .ok (some st, p3) =>
                if references.contains st.reference then
                  .err (duplicateReferenceMsg st.reference)
                else
                  parseStructuresLoop fuel t p3 (structures ++ [st])
                    (references ++ [st.reference])
      else .ok (structures, p)

/-- `_parseStructures`. -/
def parseStructures (fuel : Nat) (t : Text) (p : Nat) :
    PResult (List Structure × Nat) :=
  parseStructuresLoop fuel t p [] []

/-- `_parseImportStatement`: the keyword `import` followed by a path string;
a missing or empty path raises.  Returns the path. -/
def parseImportStatement (t : Text) (p0 : Nat) : PResult (Option Text × Nat) :=
  let p1 := parseWhiteSpace t p0
  if cut t p1 6 = "import".toList then
    let p2 := parseWhiteSpace t (p1 + 6)
    match parseString t p2 with
    | .err e => .err e
    | .fuelOut => .fuelOut
    | .crash => .crash
    | .ok (none, _) => .err (pathStringMsg p2)
    | .ok (some path, p3) =>
        if path = [] then .err (pathStringMsg p3) else .ok (some path, p3)
  else .ok (none, p1)

/-- The loop of `_parseImportStatements`. -/
def parseImportStatementsLoop :
    Nat → Text → Nat → List Text → PResult (List Text × Nat)
  | 0, _, _, _ => .fuelOut
  | fuel + 1, t, p, acc =>
      if p < t.length then
        match parseImportStatement t p with
        | .err e => .err e
        | .fuelOut => .fuelOut
        | .crash => .crash
        | .ok (none, p1) => .ok (acc, p1)
        | .ok (some path, p1) => parseImportStatementsLoop fuel t p1 (acc ++ [path])
      else .ok (acc, p)

/-- `_parseImportStatements`. -/
def parseImportStatements (fuel : Nat) (t : Text) (p : Nat) :
    PResult (List Text × Nat) :=
  parseImportStatementsLoop fuel t (parseWhiteSpace t p) []

/-! ## Schema (`structures.py`) -/

/-- `Schema` (`structures.py`): format name, locally defined structures, and
imported dependency schemas. -/
inductive Schema where
  | mk (formatName : Text) (structures : List Structure) (dependencies : List Schema)

/-- `Schema.formatName`. -/
def Schema.formatName : Schema → Text
  | .mk f _ _ => f

/-- `Schema.structures`. -/
def Schema.structures : Schema → List Structure
  | .mk _ s _ => s

/-- `Schema.dependencies`. -/
def Schema.dependencies : Schema → List Schema
  | .mk _ _ d => d

/-- Replacing the structure list of a schema (the effect of assignments to
`schema.structures`). -/
def Schema.setStructures : Schema → List Structure → Schema
  | .mk f _ d, s => .mk f s d

/-- `Schema._allStructures`: every structure of every dependency (one level),
followed by the local structures. -/
def Schema.allStructures (s : Schema) : List Structure :=
  (s.dependencies.map Schema.structures).flatten ++ s.structures

/-- The lookup of `Schema.getStructureByReference`: the Python code builds
`{structure.reference: structure for structure in self._allStructures}`, in
which a later structure with the same reference overwrites an earlier one, so
the lookup returns the last structure in `_allStructures` whose reference
matches. -/
def lookupLastStructure (l : List Structure) (r : Text) : Option Structure :=
  match l with
  | [] => none
  | x :: xs =>
      match lookupLastStructure xs r with
      | some y => some y
      | none => if x.reference = r then some x else none

/-- The index (into the same list) of the structure that
`lookupLastStructure` returns. -/
def lookupLastIdx (l : List Structure) (r : Text) : Option Nat :=
  match l with
  | [] => none
  | x :: xs =>
      match lookupLastIdx xs r with
      | some j => some (j + 1)
      | none => if x.reference = r then some 0 else none

/-- `Schema.getStructureByReference`. -/
def Schema.getStructureByReference (s : Schema) (r : Text) : Option Structure :=
  lookupLastStructure s.allStructures r

/-- Whether a structure is an `ElementStructure` with
`canBeRootElement == True` (the filter of `getRootElementStructures`). -/
def isRootElementStructure : Structure → Bool
  | .element e => e.canBeRootElement
  | _ => false

/-- The indices (into `allStructures`) of the root element structures, in
order - `Schema.getRootElementStructures` as indices. -/
def rootElementIdxs (structs : List Structure) : List Nat :=
  (structs.enum.filter (fun si => isRootElementStructure si.2)).map (fun si => si.1)

/-- The indices of the structures whose `isUsed` flag is already `True`.
The marking functions below manipulate the mutable `isUsed` flags as a set of
indices into `allStructures`; this reads the initial set off the flags. -/
def initialMarks (structs : List Structure) : List Nat :=
  (structs.enum.filter (fun si => si.2.isUsed)).map (fun si => si.1)

/-! ## Reachability marking (`setIsUsed` in `structures.py`)

`setIsUsed` is a family of mutually recursive Python methods that set
`isUsed = True` on a structure and recurse into the structures it references;
there is no cycle guard and no visited check, so a cyclic reference chain
recurses forever (modelled by the fuel).  The methods are embedded as one
recursion over the per-structure list of mark targets. -/

mutual

/-- The references into which `setIsUsed` recurses from the usage references
of an `allowedContent` value: an `ElementUsageReference` marks its element
structure, a `DataUsageReference` marks its data structure, the wildcard
usage references mark nothing, and a structure list recurses into its
items.  (A reference that resolves to nothing is skipped by these methods'
`!= None` checks.) -/
def contentTargets : AllowedContent → List Text
  | .elementUsage eur => [eur.elementStructureReference]
  | .dataUsage r => [r]
  | .anyElements => []
  | .anyText => []
  | .orderedList l => contentTargetsList l
  | .unorderedList l => contentTargetsList l
  | .structureChoice l => contentTargetsList l

/-- `contentTargets` over the items of a structure list, in order. -/
def contentTargetsList : List AllowedContent → List Text
  | [] => []
  | c :: cs => contentTargets c ++ contentTargetsList cs

end

/-- The references into which `setIsUsed` recurses from a structure, in
order, each tagged with whether a failed lookup crashes (`True` for the
attribute usages of an element and the property usages of an object, whose
`setIsUsed` dereferences the lookup without a `None` check - an
`AttributeError` in Python; `False` everywhere a `!= None` check skips the
missing structure).  The base structure reference comes first
(`Structure.setIsUsed` runs before the subclass-specific part). -/
def structTargets : Structure → List (Text × Bool)
  | .data d => [(d.baseStructureReference, false)]
  | .attr a =>
      (a.baseStructureReference, false) ::
        (match a.dataStructureReference with
         | .ref r => [(r, false)]
         | .listFn _ => [])
  | .element e =>
      (e.baseStructureReference, false) ::
        (e.attributes.map (fun aur => (aur.attributeStructureReference, true)) ++
          (match e.allowedContent with
           | some c => (contentTargets c).map (fun r => (r, false))
           | none => []))
  | .prop ps =>
      (ps.baseStructureReference, false) ::
        (match ps.valueTypeReference with
         | .ref r => [(r, false)]
         | .listFn _ => [])
  | .array a => [(a.baseStructureReference, false), (a.itemTypeReference, false)]
  | .obj o =>
      (o.baseStructureReference, false) ::
        o.properties.map (fun pur => (pur.propertyStructureReference, true))

mutual

/-- `setIsUsed` on the structure at index `i`: record the index as marked,
then recurse into each target in order.  Fuel stands for Python's call
stack; every recursive call receives the predecessor fuel, so any run that
returns `.ok` is one that Python completes as well. -/
def markStructure (structs : List Structure) (fuel : Nat) (marked : List Nat)
    (i : Nat) : PResult (List Nat) :=
  match fuel, marked, i with
  | 0, _, _ => .fuelOut
  | fuel + 1, marked, i =>
      match structs.get? i with
      | none => .crash
      | some s => markList structs fuel (i :: marked) (structTargets s)
  termination_by structural fuel

/-- `setIsUsed` over a list of targets: resolve each reference with the
last-match lookup; recurse on a hit, skip or crash on a miss according to the
target's crash flag. -/
def markList (structs : List Structure) (fuel : Nat) (marked : List Nat)
    (ts : List (Text × Bool)) : PResult (List Nat) :=
  match fuel, marked, ts with
  | _, marked, [] => .ok marked
  | 0, _, _ :: _ => .fuelOut
  | fuel + 1, marked, (r, crashIfMissing) :: ts =>
      match lookupLastIdx structs r with
      | some j =>
          match markStructure structs fuel marked j with
          | .ok marked2 => markList structs fuel marked2 ts
          | .err e => .err e
          | .fuelOut => .fuelOut
          | .crash => .crash
      | none =>
          if crashIfMissing then .crash else markList structs fuel marked ts
  termination_by structural fuel

end

/-- The loop of `Schema.setIsUsed`: call `setIsUsed` on every root element
structure in order. -/
def markRoots (structs : List Structure) (fuel : Nat) :
    List Nat → List Nat → PResult (List Nat)
  | marked, [] => .ok marked
  | marked, i :: is =>
      match markStructure structs fuel marked i with
      | .ok marked2 => markRoots structs fuel marked2 is
      | .err e => .err e
      | .fuelOut => .fuelOut
      | .crash => .crash

/-- `Schema.setIsUsed`, with the mutable `isUsed` flags represented as the
set of marked indices into `allStructures`: starting from the current flags,
mark from every root element structure.  (Root object structures are not
starting points: `Schema.setIsUsed` iterates `getRootElementStructures()`
only.) -/
def Schema.setIsUsedMarks (s : Schema) (fuel : Nat) : PResult (List Nat) :=
  markRoots s.allStructures fuel (initialMarks s.allStructures)
    (rootElementIdxs s.allStructures)

/-- Writing a set of marked indices back into the `isUsed` flags of a
structure list, where index 0 of the marked set corresponds to `offset`. -/
def applyMarksOffset (structs : List Structure) (offset : Nat) (marked : List Nat) :
    List Structure :=
  structs.enum.map (fun si =>
    if marked.contains (si.1 + offset) then si.2.setUsedTrue else si.2)

/-- Writing marks back into the dependency schemas; returns the rewritten
dependencies and the offset at which the local structures start. -/
def applyMarksDeps : List Schema → Nat → List Nat → List Schema × Nat
  | [], off, _ => ([], off)
  | d :: ds, off, marked =>
      let d2 := d.setStructures (applyMarksOffset d.structures off marked)
      let (ds2, off2) := applyMarksDeps ds (off + d.structures.length) marked
      (d2 :: ds2, off2)

/-- Writing a set of marked `allStructures` indices back into the `isUsed`
flags of the whole schema. -/
def Schema.applyMarks (s : Schema) (marked : List Nat) : Schema :=
  match applyMarksDeps s.dependencies 0 marked with
  | (deps2, off) => Schema.mk s.formatName (applyMarksOffset s.structures off marked) deps2

/-! ## Post-processing passes (`Parser.parseSchema` lines 113-153) -/

/-- One step of the disambiguation pass (`parseSchema` lines 113-122): if the
local structure at index `i` is an `ElementStructure` whose `allowedContent`
is an `ElementUsageReference` that resolves to a `DataStructure`, set the
element's `valueTypeReference` to that data structure's reference and replace
the content with a `DataUsageReference` to it. -/
def resolveContentStep (schema : Schema) (i : Nat) : Schema :=
  match schema.structures.get? i with
  | some (.element e) =>
      match e.allowedContent with
      | some (.elementUsage eur) =>
          match schema.getStructureByReference eur.elementStructureReference with
          | some (.data d) =>
              schema.setStructures (schema.structures.set i (.element
                { e with valueTypeReference := d.reference,
                         allowedContent := some (.dataUsage d.reference) }))
          | _ => schema
      | _ => schema
  | _ => schema

/-- The disambiguation pass: `resolveContentStep` over every local structure
in order (the Python loop mutates the structures in place while iterating, so
each step sees the schema as left by the previous steps). -/
def resolveDataUsageReferences (schema : Schema) : Schema :=
  (List.range schema.structures.length).foldl resolveContentStep schema

/-- One step of the list-function expansion pass (`parseSchema` lines
126-149): for an `AttributeStructure` whose declared value type is a
`ListFunction`, mark the referenced data structure as used (`ds1.setIsUsed()`
- dereferenced without a `None` check, and reading `allowedValues` off a
non-`DataStructure` also crashes), synthesise the `list_of__` data structure,
and repoint the attribute at it.  The accumulator carries the synthesised
structures, appended to the schema after the loop. -/
def expandListFunctionsStep (fuel : Nat) (acc : PResult (Schema × List DataStructure))
    (i : Nat) : PResult (Schema × List DataStructure) :=
  match acc with
  | .err e => .err e
  | .fuelOut => .fuelOut
  | .crash => .crash
  | .ok (schema, lds) =>
      match schema.structures.get? i with
      | some (.attr a) =>
          match a.dataStructureReference with
          | .listFn lf =>
              match lookupLastIdx schema.allStructures lf.dataStructureReference with
              | none => .crash
              | some j =>
                  match (schema.allStructures).get? j with
                  | some (.data d1) =>
                      match markStructure schema.allStructures fuel
                          (initialMarks schema.allStructures) j with
                      | .err e => .err e
                      | .fuelOut => .fuelOut
                      | .crash => .crash
                      | .ok marked =>
                          let schema2 := schema.applyMarks marked
                          let pattern :=
                            if d1.allowedValues ≠ [] then
                              List.intercalate "|".toList d1.allowedValues
                            else if d1.allowedPattern ≠ [] then d1.allowedPattern
                            else []
                          let ds2 : DataStructure :=
                            { reference := "list_of__".toList ++ d1.reference,
                              baseStructureReference := "string".toList,
                              allowedPattern := "(".toList ++ pattern
                                ++ ")(\\s*".toList ++ lf.separator
                                ++ "\\s*(".toList ++ pattern ++ "))*".toList }
                          match schema2.structures.get? i with
                          | some (.attr a2) =>
                              .ok (schema2.setStructures (schema2.structures.set i
                                (.attr { a2 with
                                  dataStructureReference := .ref ds2.reference })),
                                lds ++ [ds2])
                          | _ => .crash
                  | _ => .crash
          | .ref _ => .ok (schema, lds)
      | _ => .ok (schema, lds)

/-- The list-function expansion pass; the synthesised structures are appended
to the schema's structure list after the loop. -/
def expandListFunctions (schema : Schema) (fuel : Nat) : PResult Schema :=
  match (List.range schema.structures.length).foldl (expandListFunctionsStep fuel)
      (.ok (schema, [])) with
  | .ok (schema2, lds) =>
      .ok (schema2.setStructures (schema2.structures ++ lds.map Structure.data))
  | .err e => .err e
  | .fuelOut => .fuelOut
  | .crash => .crash

/-- `Parser.parseSchema` on an input text: leading whitespace, optional
metadata comment (the `Format Name` regex extraction is consulted by no claim
and is not embedded), import statements, structure definitions, then the
disambiguation pass, the list-function expansion pass, and the reachability
marking.  Loading an import reads the file system, which is outside this
embedding: an input whose import list is non-empty is mapped to `.crash`
(parse errors arising while reading the import statements themselves are
still produced faithfully). -/
def parseSchemaText (fuel : Nat) (t : Text) : PResult Schema :=
  let p1 := parseWhiteSpace t 0
  match parseComment t p1 with
  | .err e => .err e
  | .fuelOut => .fuelOut
  | .crash => .crash
  | .ok (_, p2) =>
      match parseImportStatements fuel t p2 with
      | .err e => .err e
      | .fuelOut => .fuelOut
      | .crash => .crash
      | .ok (imports, p3) =>
          if imports = [] then
            match parseStructures fuel t p3 with
            | .err e => .err e
            | .fuelOut => .fuelOut
            | .crash => .crash
            | .ok (structures, _) =>
                let schema1 := resolveDataUsageReferences (Schema.mk [] structures [])
                match expandListFunctions schema1 fuel with
                | .err e => .err e
                | .fuelOut => .fuelOut
                | .crash => .crash
                | .ok schema2 =>
                    match schema2.setIsUsedMarks fuel with
                    | .err e => .err e
                    | .fuelOut => .fuelOut
                    | .crash => .crash
                    | .ok marked => .ok (schema2.applyMarks marked)
          else .crash

/-- Two structures that agree on their reference and on whether (and as
what) they are a `DataStructure`.  The disambiguation pass only rewrites
element payloads, which preserves this relation, and the relation is all the
pass's lookups depend on. -/
def StructEquiv (x y : Structure) : Prop :=
  x.reference = y.reference ∧ ∀ d, (x = .data d ↔ y = .data d)

/-- The per-structure specification of the disambiguation pass, with every
lookup made in the given (original) schema: an element whose content is an
element usage reference resolving to a data structure is rewritten; every
other structure is unchanged. -/
def resolveSpecAt (schema : Schema) (s : Structure) : Structure :=
  match s with
  | .element e =>
      match e.allowedContent with
      | some (.elementUsage eur) =>
          match schema.getStructureByReference eur.elementStructureReference with
          | some (.data d) =>
              .element { e with valueTypeReference := d.reference,
                                allowedContent := some (.dataUsage d.reference) }
          | _ => s
      | _ => s
  | _ => s

/-- One marking hop of the reachability pass: from the structure at index
`i` of the structure list to the index that one of its mark targets resolves
to under the last-match lookup. -/
def markStep (structs : List Structure) (i j : Nat) : Prop :=
  ∃ s, structs.get? i = some s
    ∧ ∃ rc ∈ structTargets s, lookupLastIdx structs rc.1 = some j

/-- A concrete schema for exercising the marking pass: a root element `a`
whose content uses element `b`, and an unreferenced data structure `c`. -/
def markWitnessSchema : Schema :=
  Schema.mk []
    [.element { reference := "a".toList, canBeRootElement := true,
                allowedContent := some (.elementUsage
                  { elementStructureReference := "b".toList }) },
     .element { reference := "b".toList },
     .data { reference := "c".toList }]
    []

/-- The shape every error message of the parser has: one of the three
offset-carrying families (each embeds `natToChars` of the failure position)
or one of the three families that carry no offset. -/
def MsgOk (m : Text) : Prop :=
  (∃ w p, m = expectedAtPositionMsg w p)
  ∨ (∃ p, m = pathStringMsg p)
  ∨ (∃ p, m = separatorsMsg p)
  ∨ (∃ r, m = duplicateReferenceMsg r)
  ∨ (∃ n, m = invalidPropertyNameMsg n)
  ∨ (∃ w n, m = propertyValueMsg w n)

/-! ## The parser test corpus (`test_schemata.py`)

The repository ships a parameterized unit-test suite for the parser.  The
checks at the end of this file replay every one of its cases against the
embedding; these helpers express one expectation each, mirroring the
assertions of the corresponding test method. -/
def intResult (t : Text) (p : Nat) : Option Nat := (parseInteger t p).1
def refResult (t : Text) (p : Nat) : Option Text := (parseReference t p).1
def commentResult (t : Text) (p : Nat) : Option (Option Text) :=
  match parseComment t p with
  | .ok (b, _) => some b
  | _ => none
def commentFails (t : Text) (p : Nat) : Bool :=
  match parseComment t p with
  | .err _ => true
  | _ => false
def eurCheck (t : Text) (r : Text) (mn mx : Int) : Bool :=
  match parseElementUsageReference t 0 with
  | .ok (some eur, _) =>
      eur.elementStructureReference == r
        && eur.minimumNumberOfOccurrences == mn
        && eur.maximumNumberOfOccurrences == mx
  | _ => false
def eurFails (t : Text) : Bool :=
  match parseElementUsageReference t 0 with
  | .err _ => true
  | _ => false
def aurCheck (t : Text) (r : Text) (opt : Bool) : Bool :=
  match parseAttributeUsageReference t 0 with
  | .ok (some aur, _) =>
      aur.attributeStructureReference == r && aur.isOptional == opt
  | _ => false
def aurFails (t : Text) : Bool :=
  match parseAttributeUsageReference t 0 with
  | .err _ => true
  | _ => false
inductive SLKind where
  | unordered | ordered | choice
deriving DecidableEq
def slCheck (t : Text) (k : SLKind) (n : Nat) : Bool :=
  match parseSubelementList 100 t 0 with
  | .ok (some (.unorderedList l), _) => k == .unordered && l.length == n
  | .ok (some (.orderedList l), _) => k == .ordered && l.length == n
  | .ok (some (.structureChoice l), _) => k == .choice && l.length == n
  | _ => false
def slFails (t : Text) : Bool :=
  match parseSubelementList 100 t 0 with
  | .err _ => true
  | _ => false

/-! ## Claim C7 and C8: subelement list shapes and separator errors -/

/-- Claim C7: for a successfully parsed subelement list the bracket kind and
separator kind determine the result type and preserve item count and nesting:
`{a, b, c}` parses to an `UnorderedStructureList` of the three parsed items,
`[a, b, c]` to an `OrderedStructureList`, `{a / b / c}` to a
`StructureChoice`, and in `{a, b, {c, [d,e], f}}` the nested lists keep their
own types and item counts recursively. -/
theorem C7_subelement_list_types :
    parseSubelementList 100 "\x7ba, b, c\x7d".toList 0
      = .ok (some (.unorderedList
          [.elementUsage { elementStructureReference := "a".toList },
           .elementUsage { elementStructureReference := "b".toList },
           .elementUsage { elementStructureReference := "c".toList }]), 9)
  ∧ parseSubelementList 100 "[a, b, c]".toList 0
      = .ok (some (.orderedList
          [.elementUsage { elementStructureReference := "a".toList },
           .elementUsage { elementStructureReference := "b".toList },
           .elementUsage { elementStructureReference := "c".toList }]), 9)
  ∧ parseSubelementList 100 "\x7ba / b / c\x7d".toList 0
      = .ok (some (.structureChoice
          [.elementUsage { elementStructureReference := "a".toList },
           .elementUsage { elementStructureReference := "b".toList },
           .elementUsage { elementStructureReference := "c".toList }]), 11)
  ∧ parseSubelementList 100 "\x7ba, b, \x7bc, [d,e], f\x7d\x7d".toList 0
      = .ok (some (.unorderedList
          [.elementUsage { elementStructureReference := "a".toList },
           .elementUsage { elementStructureReference := "b".toList },
           .unorderedList
             [.elementUsage { elementStructureReference := "c".toList },
              .orderedList
                [.elementUsage { elementStructureReference := "d".toList },
                 .elementUsage { elementStructureReference := "e".toList }],
              .elementUsage { elementStructureReference := "f".toList }]]), 21) :=
  ⟨rfl, rfl, rfl, rfl⟩

/-- Claim C8: within one subelement list the first separator fixes the
separator for the rest of the list - a later separator of the other kind
raises the fatal `Separators must be the same throughout a list` error, in
both orders (`{a, b / c}` with comma first, `{a / b, c}` with slash first);
and a `/` separator inside square brackets raises the fatal
`Expected ','` error, so a square-bracket list with slash separators is
never produced. -/
theorem C8_separator_consistency_errors :
    parseSubelementList 100 "\x7ba, b / c\x7d".toList 0 = .err (separatorsMsg 6)
  ∧ parseSubelementList 100 "\x7ba / b, c\x7d".toList 0 = .err (separatorsMsg 6)
  ∧ parseSubelementList 100 "[a / b]".toList 0
      = .err (expectedAtPositionMsg "\x27,\x27".toList 3) :=
  ⟨rfl, rfl, rfl⟩

/-! ## Claim C9: `defaultValue` is parsed but never assigned to a data structure -/

/-- `applyDataStructureProperty` never touches the `defaultValue` field: the
property application of `_parseDataStructure` handles only `baseType`,
`allowedPattern`, `allowedValues`, `minimumValue` and `maximumValue`. -/
theorem applyDataStructureProperty_defaultValue (ds : DataStructure) (name : Text)
    (v : PropertyValue) :
    (applyDataStructureProperty ds name v).defaultValue = ds.defaultValue := by
  unfold applyDataStructureProperty
  repeat' split
  all_goals rfl

/-- An invariant preserved by every property application is preserved by the
whole property loop. -/
theorem propertyLoop_inv {α : Type} (applyP : α → Text → PropertyValue → α)
    (P : α → Prop) (hP : ∀ a n v, P a → P (applyP a n v)) :
    ∀ (fuel : Nat) (t : Text) (p : Nat) (acc : α) (res : α × Nat),
      propertyLoop applyP fuel t p acc = .ok res → P acc → P res.1 := by
  intro fuel
  induction fuel with
  | zero => intro t p acc res h; simp [propertyLoop] at h
  | succ fuel ih =>
      intro t p acc res h hacc
      rw [propertyLoop] at h
      split at h
      · cases hpp : parseProperty fuel t p with
        | ok v =>
            rw [hpp] at h
            match v with
            | (none, p1) => cases h; exact hacc
            | (some (name, pv), p1) => exact ih t p1 _ res h (hP _ _ _ hacc)
        | err e => rw [hpp] at h; cases h
        | fuelOut => rw [hpp] at h; cases h
        | crash => rw [hpp] at h; cases h
      · cases h; exact hacc

/-- An invariant that holds of the initial structure and is preserved by the
property application holds of any structure that `parseStructureCommon`
returns. -/
theorem parseStructureCommon_inv {α : Type} (init : Text → α)
    (applyP : α → Text → PropertyValue → α) (P : α → Prop)
    (hinit : ∀ r, P (init r)) (hP : ∀ a n v, P a → P (applyP a n v))
    (fuel : Nat) (t : Text) (p : Nat) (res : α × Nat)
    (h : parseStructureCommon init applyP fuel t p = .ok res) : P res.1 := by
  simp only [parseStructureCommon] at h
  rcases hr : parseReference t (parseWhiteSpace t p) with ⟨refOpt, p2⟩
  rw [hr] at h
  dsimp only at h
  split at h
  · split at h
    all_goals try cases h
    case _ _ p5 =>
      split at h
      all_goals try cases h
      case _ acc2 p7 hloop =>
        split at h
        · cases h
          exact propertyLoop_inv applyP P hP fuel t _ _ (acc2, p7) hloop (hinit _)
        · cases h
  · cases h

/-- Claim C9: every `dataType` structure body that parses successfully yields
a `DataStructure` whose `defaultValue` field is still `None` - a
`defaultValue: <value>;` property in the body is parsed and validated by
`_parseProperty` but never assigned to the data structure. -/
theorem C9_dataStructure_defaultValue_not_assigned
    (fuel : Nat) (t : Text) (p q : Nat) (ds : DataStructure)
    (h : parseDataStructure fuel t p = .ok (ds, q)) :
    ds.defaultValue = none :=
  parseStructureCommon_inv _ _ (fun a => a.defaultValue = none)
    (fun _ => rfl)
    (fun a n v ha => (applyDataStructureProperty_defaultValue a n v).trans ha)
    fuel t p (ds, q) h

/-- Claim C9 witness: the body ` d { defaultValue: 5; }` parses successfully
(so the property is accepted) and the resulting data structure's
`defaultValue` is `none`. -/
theorem C9_witness :
    parseDataStructure 50 " d \x7b defaultValue: 5; \x7d".toList 0
      = .ok ({ reference := "d".toList }, 23)
  ∧ ({ reference := "d".toList } : DataStructure).defaultValue = none :=
  ⟨rfl, C9_dataStructure_defaultValue_not_assigned 50
    " d \x7b defaultValue: 5; \x7d".toList 0 23 { reference := "d".toList } rfl⟩

/-! ## Claim C10: a minimum-only n-expression leaves the maximum unbounded -/

theorem applyComparison_nExpression (eur : ElementUsageReference) (c : String × Nat) :
    (applyComparison eur c).nExpression = eur.nExpression := by
  simp only [applyComparison]
  repeat' split
  all_goals rfl

theorem applyComparison_max (eur : ElementUsageReference) (c : String × Nat)
    (h : c.1 = ">" ∨ c.1 = ">=") :
    (applyComparison eur c).maximumNumberOfOccurrences
      = eur.maximumNumberOfOccurrences := by
  simp only [applyComparison]
  rcases h with h | h <;> rw [h] <;> simp

theorem applyNExpression_nExpression (eur : ElementUsageReference)
    (e : List (String × Nat)) :
    (applyNExpression eur e).nExpression = eur.nExpression := by
  induction e generalizing eur with
  | nil => rfl
  | cons c cs ih =>
      show (applyNExpression (applyComparison eur c) cs).nExpression = _
      rw [ih, applyComparison_nExpression]

theorem applyNExpression_max (eur : ElementUsageReference)
    (e : List (String × Nat)) (h : ∀ c ∈ e, c.1 = ">" ∨ c.1 = ">=") :
    (applyNExpression eur e).maximumNumberOfOccurrences
      = eur.maximumNumberOfOccurrences := by
  induction e generalizing eur with
  | nil => rfl
  | cons c cs ih =>
      show (applyNExpression (applyComparison eur c) cs).maximumNumberOfOccurrences = _
      rw [ih _ (fun x hx => h x (List.mem_cons_of_mem c hx)),
        applyComparison_max eur c (h c (List.mem_cons_self c cs))]

theorem C10_general
    (t : Text) (p q : Nat) (eur : ElementUsageReference)
    (l : List (String × Nat))
    (h : parseElementUsageReference t p = .ok (some eur, q))
    (h2 : eur.nExpression = some l)
    (h3 : ∀ c ∈ l, c.1 = ">" ∨ c.1 = ">=") :
    eur.maximumNumberOfOccurrences = -1 := by
  simp only [parseElementUsageReference] at h
  rcases hr : parseReference t (parseWhiteSpace t p) with ⟨refOpt, p2⟩
  rw [hr] at h
  split at h
  · cases h
  · split at h
    · -- paren branch
      split at h
      all_goals try cases h
      · -- nExpression some
        split at h
        · cases h
          rw [applyNExpression_nExpression] at h2
          cases h2
          exact applyNExpression_max _ _ h3
        · cases h
      · -- optional branch
        split at h
        · split at h
          · cases h
            rw [applyNExpression_nExpression] at h2
            cases h2
            rcases h3 (("<=" : String), 1) (by simp) with hc | hc <;> simp at hc
          · cases h
        · cases h
    · -- bare branch
      cases h
      simp at h2

/-- Claim C10: for an element usage reference whose parenthesised
n-expression constrains only the minimum (every comparison operator is `>` or
`>=`), the parsed `maximumNumberOfOccurrences` is `-1` (unbounded) rather
than the bare-reference default of 1, because opening the parenthesis resets
the bounds to minimum 0 and maximum -1 before the comparisons are folded in;
concretely, `a (n >= 2)` parses to minimum 2 and maximum -1. -/
theorem C10_min_only_nExpression_unbounded_max :
    (∀ (t : Text) (p q : Nat) (eur : ElementUsageReference)
       (l : List (String × Nat)),
       parseElementUsageReference t p = .ok (some eur, q) →
       eur.nExpression = some l →
       (∀ c ∈ l, c.1 = ">" ∨ c.1 = ">=") →
       eur.maximumNumberOfOccurrences = -1)
  ∧ parseElementUsageReference "a (n >= 2)".toList 0
      = .ok (some { elementStructureReference := "a".toList,
                    nExpression := some [(">=", 2)],
                    minimumNumberOfOccurrences := 2,
                    maximumNumberOfOccurrences := -1 }, 10) :=
  ⟨C10_general, rfl⟩

/-- Claim C10 witness: the general statement applied to the concrete input
`a (n >= 2)`, whose n-expression `[(">=', 2)]` constrains only the minimum;
the maximum comes out as -1. -/
theorem C10_witness :
    parseElementUsageReference "a (n >= 2)".toList 0
      = .ok (some { elementStructureReference := "a".toList,
                    nExpression := some [(">=", 2)],
                    minimumNumberOfOccurrences := 2,
                    maximumNumberOfOccurrences := -1 }, 10)
  ∧ ({ elementStructureReference := "a".toList,
       nExpression := some [(">=", 2)],
       minimumNumberOfOccurrences := 2,
       maximumNumberOfOccurrences := -1 } :
        ElementUsageReference).maximumNumberOfOccurrences = -1 :=
  ⟨rfl, C10_min_only_nExpression_unbounded_max.1 "a (n >= 2)".toList 0 10 _
    [(">=", 2)] rfl rfl (by decide)⟩

/-! ## Stepping lemmas for the lexical scanners

These lemmas drive a scanner at position `p` from a hypothesis describing
`t.drop p`, so that parses of texts of the form `abstract ++ concrete` can be
computed. -/

theorem dropAt (t : Text) (p k : Nat) (R : Text) (h : t.drop p = R) :
    t.drop (p + k) = R.drop k := by
  rw [← h]; exact (List.drop_drop k p t).symm

theorem cutAt (t : Text) (p n : Nat) (R : Text) (h : t.drop p = R) :
    cut t p n = R.take n := by simp [cut, h]

theorem parseWhiteSpaceAt (t : Text) (p : Nat) (R : Text) (h : t.drop p = R) :
    parseWhiteSpace t p
      = p + (R.takeWhile (fun c => whiteSpaceCharacters.contains c)).length := by
  simp [parseWhiteSpace, h]

theorem charClass_ref_not_ws :
    ∀ c ∈ referenceCharacters, whiteSpaceCharacters.contains c = false := by decide

theorem parseReferenceAt (t : Text) (p : Nat) (r rest : Text)
    (h : t.drop p = r ++ rest) (hr : r ≠ [])
    (hall : ∀ c ∈ r, referenceCharacters.contains c = true)
    (hrest : rest.takeWhile (fun c => referenceCharacters.contains c) = []) :
    parseReference t p = (some r, p + r.length) := by
  have htw : (t.drop p).takeWhile (fun c => referenceCharacters.contains c) = r := by
    rw [h, List.takeWhile_append_of_pos hall, hrest, List.append_nil]
  simp only [parseReference, htw]
  rw [if_neg]
  simpa using hr

theorem parseNExpression_at_optional (t : Text) (p : Nat)
    (h : t.drop p = "optional)".toList) :
    parseNExpression t p = .ok (none, p) := by
  have htw : ("optional)".toList.takeWhile
      (fun c => whiteSpaceCharacters.contains c)) = [] := by decide
  have hws : parseWhiteSpace t p = p := by
    rw [parseWhiteSpaceAt _ _ _ h, htw]; rfl
  have htd : ("optional)".toList.takeWhile
      (fun c => digitCharacters.contains c)) = [] := by decide
  have hint : parseInteger t p = (none, p) := by
    simp only [parseInteger, h, htd]
    rfl
  have hcut : cut t p 1 = "o".toList := by rw [cutAt _ _ _ _ h]; rfl
  simp [parseNExpression, hws, hint, nExpressionTail, hcut]

theorem parseEUR_optional_path (t : Text) (p q p3 p4 p5 p6 : Nat) (r : Text)
    (hws0 : parseWhiteSpace t p = p)
    (href : parseReference t p = (some r, q))
    (hws1 : parseWhiteSpace t q = p3)
    (hcut1 : cut t p3 1 = "(".toList)
    (hws2 : parseWhiteSpace t (p3 + 1) = p4)
    (hnexp : parseNExpression t p4 = .ok (none, p5))
    (hcut8 : cut t p5 8 = "optional".toList)
    (hws10 : parseWhiteSpace t (p5 + 8) = p6)
    (hcut10 : cut t p6 1 = ")".toList) :
    parseElementUsageReference t p
      = .ok (some (applyNExpression
          { elementStructureReference := r,
            nExpression := some [(">=", 0), ("<=", 1)],
            minimumNumberOfOccurrences := 0,
            maximumNumberOfOccurrences := -1 } [(">=", 0), ("<=", 1)]),
        p6 + 1) := by
  simp only [parseElementUsageReference, hws0, href, hws1, hcut1, hws2, hnexp,
    hcut8, hws10, hcut10]
  simp

theorem C6_optional_general (r : Text) (hr : r ≠ [])
    (hall : ∀ c ∈ r, referenceCharacters.contains c = true) :
    parseElementUsageReference (r ++ " (optional)".toList) 0
      = .ok (some { elementStructureReference := r,
                    nExpression := some [(">=", 0), ("<=", 1)],
                    minimumNumberOfOccurrences := 0,
                    maximumNumberOfOccurrences := 1 }, r.length + 11) := by
  obtain ⟨c, r', rfl⟩ := List.exists_cons_of_ne_nil hr
  have hcr : ∀ x ∈ (c :: r'), x ∈ referenceCharacters := fun x hx =>
    List.mem_of_elem_eq_true (hall x hx)
  have h0 : ((c :: r') ++ " (optional)".toList).drop 0
      = (c :: r') ++ " (optional)".toList := List.drop_zero _
  have hL : ((c :: r') ++ " (optional)".toList).drop (c :: r').length
      = " (optional)".toList := List.drop_left _ _
  have hcw : whiteSpaceCharacters.contains c = false :=
    charClass_ref_not_ws c (hcr c (List.mem_cons_self c r'))
  have hcw2 : c ∉ whiteSpaceCharacters := by simpa using hcw
  have hws0 : parseWhiteSpace ((c :: r') ++ " (optional)".toList) 0 = 0 := by
    rw [parseWhiteSpaceAt _ 0 _ h0]
    simp [List.takeWhile_cons, hcw2]
  have href : parseReference ((c :: r') ++ " (optional)".toList) 0
      = (some (c :: r'), 0 + (c :: r').length) :=
    parseReferenceAt _ 0 (c :: r') " (optional)".toList h0 hr hall (by decide)
  have htw1 : (" (optional)".toList.takeWhile
      (fun c => whiteSpaceCharacters.contains c)).length = 1 := by decide
  have hws1 : parseWhiteSpace ((c :: r') ++ " (optional)".toList) ((c :: r').length)
      = (c :: r').length + 1 := by
    rw [parseWhiteSpaceAt _ _ _ hL, htw1]
  have hd1 : ((c :: r') ++ " (optional)".toList).drop ((c :: r').length + 1)
      = "(optional)".toList := by rw [dropAt _ _ 1 _ hL]; rfl
  have hd2 : ((c :: r') ++ " (optional)".toList).drop ((c :: r').length + 2)
      = "optional)".toList := by rw [dropAt _ _ 2 _ hL]; rfl
  have hd10 : ((c :: r') ++ " (optional)".toList).drop ((c :: r').length + 10)
      = ")".toList := by rw [dropAt _ _ 10 _ hL]; rfl
  have hcut1 : cut ((c :: r') ++ " (optional)".toList) ((c :: r').length + 1) 1
      = "(".toList := by rw [cutAt _ _ _ _ hd1]; rfl
  have hws2 : parseWhiteSpace ((c :: r') ++ " (optional)".toList)
      ((c :: r').length + 1 + 1) = (c :: r').length + 2 := by
    have he : (c :: r').length + 1 + 1 = (c :: r').length + 2 := by omega
    rw [he, parseWhiteSpaceAt _ _ _ hd2]; rfl
  have hnexp : parseNExpression ((c :: r') ++ " (optional)".toList)
      ((c :: r').length + 2) = .ok (none, (c :: r').length + 2) :=
    parseNExpression_at_optional _ _ hd2
  have hcut8 : cut ((c :: r') ++ " (optional)".toList) ((c :: r').length + 2) 8
      = "optional".toList := by rw [cutAt _ _ _ _ hd2]; rfl
  have hws10 : parseWhiteSpace ((c :: r') ++ " (optional)".toList)
      ((c :: r').length + 2 + 8) = (c :: r').length + 10 := by
    have he : (c :: r').length + 2 + 8 = (c :: r').length + 10 := by omega
    rw [he, parseWhiteSpaceAt _ _ _ hd10]; rfl
  have hcut10 : cut ((c :: r') ++ " (optional)".toList) ((c :: r').length + 10) 1
      = ")".toList := by rw [cutAt _ _ _ _ hd10]; rfl
  have hfin := parseEUR_optional_path _ 0 ((c :: r').length)
    ((c :: r').length + 1) ((c :: r').length + 2) ((c :: r').length + 2)
    ((c :: r').length + 10) (c :: r') hws0 (by simpa using href) hws1 hcut1
    (by simpa using hws2) hnexp hcut8 (by simpa using hws10) hcut10
  rw [hfin]
  have he : (c :: r').length + 10 + 1 = (c :: r').length + 11 := by omega
  rw [he]
  rfl
-- TRUNCATED
/-
  have hcr : ∀ x ∈ (c :: r'), x ∈ referenceCharacters := fun x hx =>
    List.mem_of_elem_eq_true (hall x hx)
  have h0 : ((c :: r') ++ " (optional)".toList).drop 0
      = (c :: r') ++ " (optional)".toList := List.drop_zero _
  have hL : ((c :: r') ++ " (optional)".toList).drop (c :: r').length
      = " (optional)".toList := List.drop_left _ _
  have hcw : whiteSpaceCharacters.contains c = false :=
    charClass_ref_not_ws c (hcr c (List.mem_cons_self c r'))
  have hcw2 : c ∉ whiteSpaceCharacters := by simpa using hcw
  have hws0 : parseWhiteSpace ((c :: r') ++ " (optional)".toList) 0 = 0 := by
    rw [parseWhiteSpaceAt _ 0 _ h0]
    simp [List.takeWhile_cons, hcw2]
  have href : parseReference ((c :: r') ++ " (optional)".toList) 0
      = (some (c :: r'), 0 + (c :: r').length) :=
    parseReferenceAt _ 0 (c :: r') " (optional)".toList h0 hr hall (by decide)
  have htw1 : (" (optional)".toList.takeWhile
      (fun c => whiteSpaceCharacters.contains c)).length = 1 := by decide
  have hws1 : parseWhiteSpace ((c :: r') ++ " (optional)".toList) ((c :: r').length)
      = (c :: r').length + 1 := by
    rw [parseWhiteSpaceAt _ _ _ hL, htw1]
  have hd1 : ((c :: r') ++ " (optional)".toList).drop ((c :: r').length + 1)
      = "(optional)".toList := by rw [dropAt _ _ 1 _ hL]; rfl
  have hd2 : ((c :: r') ++ " (optional)".toList).drop ((c :: r').length + 2)
      = "optional)".toList := by rw [dropAt _ _ 2 _ hL]; rfl
  have hd10 : ((c :: r') ++ " (optional)".toList).drop ((c :: r').length + 10)
      = ")".toList := by rw [dropAt _ _ 10 _ hL]; rfl
  have hcut1 : cut ((c :: r') ++ " (optional)".toList) ((c :: r').length + 1) 1
      = "(".toList := by rw [cutAt _ _ _ _ hd1]; rfl
  have hws2 : parseWhiteSpace ((c :: r') ++ " (optional)".toList)
      ((c :: r').length + 1 + 1) = (c :: r').length + 2 := by
    have he : (c :: r').length + 1 + 1 = (c :: r').length + 2 := by omega
    rw [he, parseWhiteSpaceAt _ _ _ hd2]; rfl
  have hnexp : parseNExpression ((c :: r') ++ " (optional)".toList)
      ((c :: r').length + 2) = .ok (none, (c :: r').length + 2) :=
    parseNExpression_at_optional _ _ hd2
  have hcut8 : cut ((c :: r') ++ " (optional)".toList) ((c :: r').length + 2) 8
      = "optional".toList := by rw [cutAt _ _ _ _ hd2]; rfl
  have hws10 : parseWhiteSpace ((c :: r') ++ " (optional)".toList)
      ((c :: r').length + 2 + 8) = (c :: r').length + 10 := by
    have he : (c :: r').length + 2 + 8 = (c :: r').length + 10 := by omega
    rw [he, parseWhiteSpaceAt _ _ _ hd10]; rfl
  have hcut10 : cut ((c :: r') ++ " (optional)".toList) ((c :: r').length + 10) 1
      = ")".toList := by rw [cutAt _ _ _ _ hd10]; rfl
  have hfin := parseEUR_optional_path _ 0 ((c :: r').length)
    ((c :: r').length + 1) ((c :: r').length + 2) ((c :: r').length + 2)
    ((c :: r').length + 10) (c :: r') hws0 (by simpa using href) hws1 hcut1
    (by simpa using hws2) hnexp hcut8 (by simpa using hws10) hcut10
  rw [hfin]
  have he : (c :: r').length + 10 + 1 = (c :: r').length + 11 := by omega
  rw [he]
  rfl

-/

theorem C6_bare_general (t : Text) (p q : Nat) (eur : ElementUsageReference)
    (h : parseElementUsageReference t p = .ok (some eur, q))
    (h2 : eur.nExpression = none) :
    eur.minimumNumberOfOccurrences = 1 ∧ eur.maximumNumberOfOccurrences = 1 := by
  simp only [parseElementUsageReference] at h
  rcases hr : parseReference t (parseWhiteSpace t p) with ⟨refOpt, p2⟩
  rw [hr] at h
  split at h
  · cases h
  · split at h
    · split at h
      all_goals try cases h
      · split at h
        · cases h
          rw [applyNExpression_nExpression] at h2
          exact Option.noConfusion h2
        · cases h
      · split at h
        · split at h
          · cases h
            rw [applyNExpression_nExpression] at h2
            exact Option.noConfusion h2
          · cases h
        · cases h
    · cases h
      exact ⟨rfl, rfl⟩


/-- Claim C6: a bare element usage reference with no parenthesised suffix
(equivalently, one parsed with `nExpression = None`) yields
`minimumNumberOfOccurrences = 1` and `maximumNumberOfOccurrences = 1`; one
with the suffix `(optional)` yields exactly the bounds produced by folding
the n-expression `[(">=", 0), ("<=", 1)]` over the reset bounds, namely
minimum 0 and maximum 1. -/
theorem C6_bare_and_optional_bounds :
    (∀ (t : Text) (p q : Nat) (eur : ElementUsageReference),
       parseElementUsageReference t p = .ok (some eur, q) →
       eur.nExpression = none →
       eur.minimumNumberOfOccurrences = 1 ∧ eur.maximumNumberOfOccurrences = 1)
  ∧ (∀ r : Text, r ≠ [] → (∀ c ∈ r, referenceCharacters.contains c = true) →
       parseElementUsageReference (r ++ " (optional)".toList) 0
         = .ok (some { elementStructureReference := r,
                       nExpression := some [(">=", 0), ("<=", 1)],
                       minimumNumberOfOccurrences := 0,
                       maximumNumberOfOccurrences := 1 }, r.length + 11))
  ∧ parseElementUsageReference "button_text".toList 0
      = .ok (some { elementStructureReference := "button_text".toList }, 11) :=
  ⟨C6_bare_general, C6_optional_general, rfl⟩

/-- Claim C6 witness: the bare reference `button_text` parses with bounds
(1, 1), and `a (optional)` parses with n-expression `[(">=", 0), ("<=", 1)]`
and bounds (0, 1). -/
theorem C6_witness :
    (parseElementUsageReference "button_text".toList 0
      = .ok (some { elementStructureReference := "button_text".toList }, 11)
    ∧ ({ elementStructureReference := "button_text".toList }
        : ElementUsageReference).minimumNumberOfOccurrences = 1
    ∧ ({ elementStructureReference := "button_text".toList }
        : ElementUsageReference).maximumNumberOfOccurrences = 1)
  ∧ parseElementUsageReference ("a".toList ++ " (optional)".toList) 0
      = .ok (some { elementStructureReference := "a".toList,
                    nExpression := some [(">=", 0), ("<=", 1)],
                    minimumNumberOfOccurrences := 0,
                    maximumNumberOfOccurrences := 1 }, 12) :=
  ⟨⟨rfl,
    (C6_bare_and_optional_bounds.1 "button_text".toList 0 11 _ rfl rfl).1,
    (C6_bare_and_optional_bounds.1 "button_text".toList 0 11 _ rfl rfl).2⟩,
   C6_bare_and_optional_bounds.2.1 "a".toList (by decide) (by decide)⟩

/-! ## Claim C3: two-sided n-expressions negate the prefix operator -/

theorem charClass_digit_not_ws :
    ∀ c ∈ digitCharacters, whiteSpaceCharacters.contains c = false := by decide

theorem parseIntegerAt (t : Text) (p : Nat) (d rest : Text)
    (h : t.drop p = d ++ rest) (hd : d ≠ [])
    (hall : ∀ c ∈ d, digitCharacters.contains c = true)
    (hrest : rest.takeWhile (fun c => digitCharacters.contains c) = []) :
    parseInteger t p = (some (digitsToNat d), p + d.length) := by
  have htw : (t.drop p).takeWhile (fun c => digitCharacters.contains c) = d := by
    rw [h, List.takeWhile_append_of_pos hall, hrest, List.append_nil]
  simp only [parseInteger, htw]
  rw [if_neg]
  simpa using hd

theorem parseWhiteSpaceNone (t : Text) (p : Nat) (R : Text) (h : t.drop p = R)
    (hR : R.takeWhile (fun c => whiteSpaceCharacters.contains c) = []) :
    parseWhiteSpace t p = p := by
  rw [parseWhiteSpaceAt _ _ _ h, hR]; rfl

theorem parseWhiteSpaceOne (t : Text) (p : Nat) (R : Text) (h : t.drop p = ' ' :: R)
    (hR : R.takeWhile (fun c => whiteSpaceCharacters.contains c) = []) :
    parseWhiteSpace t p = p + 1 := by
  rw [parseWhiteSpaceAt _ _ _ h]
  rw [List.takeWhile_cons_of_pos (by decide), hR]
  rfl

theorem takeWhile_ws_op (o : String) (ho : o ∈ operators) (R : Text) :
    ((o.toList ++ R).takeWhile (fun c => whiteSpaceCharacters.contains c)) = [] := by
  fin_cases ho <;>
    exact List.takeWhile_cons_of_neg (by decide)

theorem takeWhile_digit_op (o : String) (ho : o ∈ operators) (R : Text) :
    ((o.toList ++ R).takeWhile (fun c => digitCharacters.contains c)) = [] := by
  fin_cases ho <;>
    exact List.takeWhile_cons_of_neg (by decide)

theorem takeWhile_ws_digits (d : Text) (hd : d ≠ [])
    (hall : ∀ c ∈ d, digitCharacters.contains c = true) (R : Text) :
    ((d ++ R).takeWhile (fun c => whiteSpaceCharacters.contains c)) = [] := by
  obtain ⟨c, d', rfl⟩ := List.exists_cons_of_ne_nil hd
  refine List.takeWhile_cons_of_neg ?_
  have := charClass_digit_not_ws c
    (List.mem_of_elem_eq_true (hall c (List.mem_cons_self c d')))
  simpa using this

theorem parseOperatorAt (t : Text) (p : Nat) (o : String) (rest : Text)
    (h : t.drop p = o.toList ++ ' ' :: rest) (ho : o ∈ operators) :
    parseOperator t p = (some o, p + o.toList.length) := by
  fin_cases ho <;>
    simp [parseOperator, parseOperatorAux, operatorsByLength, cut, h]

theorem parseNExpression_prefix_path (t : Text) (p a b c d e f g hh : Nat)
    (n1 n2 : Nat) (o1 o2 : String)
    (hws1 : parseWhiteSpace t p = p)
    (hint1 : parseInteger t p = (some n1, a))
    (hws2 : parseWhiteSpace t a = b)
    (hop1 : parseOperator t b = (some o1, c))
    (hws3 : parseWhiteSpace t c = d)
    (hcutn : cut t d 1 = "n".toList)
    (hws4 : parseWhiteSpace t (d + 1) = e)
    (hop2 : parseOperator t e = (some o2, f))
    (hws5 : parseWhiteSpace t f = g)
    (hint2 : parseInteger t g = (some n2, hh)) :
    parseNExpression t p
      = .ok (some [(negateOperator o1, n1), (o2, n2)], hh) := by
  simp only [parseNExpression, nExpressionTail, hws1, hint1, hws2, hop1, hws3,
    hcutn, hws4, hop2, hws5, hint2]
  simp

theorem dropAtE (t : Text) (p k q : Nat) (R S : Text) (h : t.drop p = R)
    (hq : q = p + k) (hS : R.drop k = S) : t.drop q = S := by
  subst hq; rw [dropAt _ _ k _ h, hS]

theorem C3_general (d1 d2 : Text) (o1 o2 : String)
    (hd1 : d1 ≠ []) (h1 : ∀ c ∈ d1, digitCharacters.contains c = true)
    (hd2 : d2 ≠ []) (h2 : ∀ c ∈ d2, digitCharacters.contains c = true)
    (ho1 : o1 ∈ operators) (ho2 : o2 ∈ operators) :
    ∃ L, parseNExpression
        (d1 ++ ' ' :: (o1.toList ++ ' ' :: 'n' :: ' ' ::
          (o2.toList ++ ' ' :: (d2 ++ [')'])))) 0
      = .ok (some [(negateOperator o1, digitsToNat d1),
                   (o2, digitsToNat d2)], L) := by
  set t := d1 ++ ' ' :: (o1.toList ++ ' ' :: 'n' :: ' ' ::
    (o2.toList ++ ' ' :: (d2 ++ [')']))) with ht
  have h0 : t.drop 0 = d1 ++ (' ' :: (o1.toList ++ ' ' :: 'n' :: ' ' ::
      (o2.toList ++ ' ' :: (d2 ++ [')'])))) := by rw [List.drop_zero]
  have hA : t.drop d1.length = ' ' :: (o1.toList ++ ' ' :: 'n' :: ' ' ::
      (o2.toList ++ ' ' :: (d2 ++ [')']))) := List.drop_left _ _
  have hB : t.drop (d1.length + 1) = o1.toList ++ ' ' :: 'n' :: ' ' ::
      (o2.toList ++ ' ' :: (d2 ++ [')'])) :=
    dropAtE t d1.length 1 _ _ _ hA rfl rfl
  have hC : t.drop (d1.length + 1 + o1.toList.length) = ' ' :: 'n' :: ' ' ::
      (o2.toList ++ ' ' :: (d2 ++ [')'])) :=
    dropAtE t (d1.length + 1) o1.toList.length _ _ _ hB rfl (List.drop_left _ _)
  have hD : t.drop (d1.length + 1 + o1.toList.length + 1) = 'n' :: ' ' ::
      (o2.toList ++ ' ' :: (d2 ++ [')'])) :=
    dropAtE t (d1.length + 1 + o1.toList.length) 1 _ _ _ hC rfl rfl
  have hE : t.drop (d1.length + 1 + o1.toList.length + 1 + 1) = ' ' ::
      (o2.toList ++ ' ' :: (d2 ++ [')'])) :=
    dropAtE t (d1.length + 1 + o1.toList.length + 1) 1 _ _ _ hD rfl rfl
  have hF : t.drop (d1.length + 1 + o1.toList.length + 1 + 1 + 1) =
      o2.toList ++ ' ' :: (d2 ++ [')']) :=
    dropAtE t (d1.length + 1 + o1.toList.length + 1 + 1) 1 _ _ _ hE rfl rfl
  have hG : t.drop (d1.length + 1 + o1.toList.length + 1 + 1 + 1
        + o2.toList.length) = ' ' :: (d2 ++ [')']) :=
    dropAtE t (d1.length + 1 + o1.toList.length + 1 + 1 + 1) o2.toList.length
      _ _ _ hF rfl (List.drop_left _ _)
  have hH : t.drop (d1.length + 1 + o1.toList.length + 1 + 1 + 1
        + o2.toList.length + 1) = d2 ++ [')'] :=
    dropAtE t _ 1 _ _ _ hG rfl rfl
  have hws1 : parseWhiteSpace t 0 = 0 :=
    parseWhiteSpaceNone t 0 _ h0 (takeWhile_ws_digits d1 hd1 h1 _)
  have hint1 : parseInteger t 0 = (some (digitsToNat d1), 0 + d1.length) :=
    parseIntegerAt t 0 d1 _ h0 hd1 h1 (List.takeWhile_cons_of_neg (by decide))
  have hws2 : parseWhiteSpace t (0 + d1.length) = d1.length + 1 := by
    rw [Nat.zero_add]
    exact parseWhiteSpaceOne t _ _ hA (takeWhile_ws_op o1 ho1 _)
  have hop1 : parseOperator t (d1.length + 1)
      = (some o1, d1.length + 1 + o1.toList.length) :=
    parseOperatorAt t _ o1 _ hB ho1
  have hws3 : parseWhiteSpace t (d1.length + 1 + o1.toList.length)
      = d1.length + 1 + o1.toList.length + 1 :=
    parseWhiteSpaceOne t _ _ hC (List.takeWhile_cons_of_neg (by decide))
  have hcutn : cut t (d1.length + 1 + o1.toList.length + 1) 1 = "n".toList := by
    rw [cutAt _ _ _ _ hD]; rfl
  have hws4 : parseWhiteSpace t (d1.length + 1 + o1.toList.length + 1 + 1)
      = d1.length + 1 + o1.toList.length + 1 + 1 + 1 :=
    parseWhiteSpaceOne t _ _ hE (takeWhile_ws_op o2 ho2 _)
  have hop2 : parseOperator t (d1.length + 1 + o1.toList.length + 1 + 1 + 1)
      = (some o2, d1.length + 1 + o1.toList.length + 1 + 1 + 1
          + o2.toList.length) :=
    parseOperatorAt t _ o2 _ hF ho2
  have hws5 : parseWhiteSpace t (d1.length + 1 + o1.toList.length + 1 + 1 + 1
        + o2.toList.length)
      = d1.length + 1 + o1.toList.length + 1 + 1 + 1 + o2.toList.length + 1 :=
    parseWhiteSpaceOne t _ _ hG (takeWhile_ws_digits d2 hd2 h2 _)
  have hint2 : parseInteger t (d1.length + 1 + o1.toList.length + 1 + 1 + 1
        + o2.toList.length + 1)
      = (some (digitsToNat d2), d1.length + 1 + o1.toList.length + 1 + 1 + 1
          + o2.toList.length + 1 + d2.length) :=
    parseIntegerAt t _ d2 _ hH hd2 h2 (List.takeWhile_cons_of_neg (by decide))
  exact ⟨_, parseNExpression_prefix_path t 0 _ _ _ _ _ _ _ _ _ _ o1 o2
    hws1 hint1 hws2 hop1 hws3 hcutn hws4 hop2 hws5 hint2⟩

/-- Claim C3: for every valid two-sided n-expression, the parser negates the
prefix operator when folding it into the comparison list (the operand stands
on the left of `n`), with the negation table
`= <-> =, > <-> <, >= <-> <=, < <-> >, <= <-> >=, /= <-> /=`; consequently
`x (0 <= n <= 5)` parses with bounds (0, 5), `x (0 < n <= 5)` with (1, 5),
`x (0 <= n < 5)` with (0, 4), and `x (1 < n < 5)` with (2, 4). -/
theorem C3_nExpression_prefix_negation :
    (∀ (d1 d2 : Text) (o1 o2 : String),
       d1 ≠ [] → (∀ c ∈ d1, digitCharacters.contains c = true) →
       d2 ≠ [] → (∀ c ∈ d2, digitCharacters.contains c = true) →
       o1 ∈ operators → o2 ∈ operators →
       ∃ L, parseNExpression
           (d1 ++ ' ' :: (o1.toList ++ ' ' :: 'n' :: ' ' ::
             (o2.toList ++ ' ' :: (d2 ++ [')'])))) 0
         = .ok (some [(negateOperator o1, digitsToNat d1),
                      (o2, digitsToNat d2)], L))
  ∧ (negateOperator "=" = "=" ∧ negateOperator ">" = "<"
      ∧ negateOperator ">=" = "<=" ∧ negateOperator "<" = ">"
      ∧ negateOperator "<=" = ">=" ∧ negateOperator "/=" = "/=")
  ∧ parseElementUsageReference "x (0 <= n <= 5)".toList 0
      = .ok (some { elementStructureReference := "x".toList,
                    nExpression := some [(">=", 0), ("<=", 5)],
                    minimumNumberOfOccurrences := 0,
                    maximumNumberOfOccurrences := 5 }, 15)
  ∧ parseElementUsageReference "x (0 < n <= 5)".toList 0
      = .ok (some { elementStructureReference := "x".toList,
                    nExpression := some [(">", 0), ("<=", 5)],
                    minimumNumberOfOccurrences := 1,
                    maximumNumberOfOccurrences := 5 }, 14)
  ∧ parseElementUsageReference "x (0 <= n < 5)".toList 0
      = .ok (some { elementStructureReference := "x".toList,
                    nExpression := some [(">=", 0), ("<", 5)],
                    minimumNumberOfOccurrences := 0,
                    maximumNumberOfOccurrences := 4 }, 14)
  ∧ parseElementUsageReference "x (1 < n < 5)".toList 0
      = .ok (some { elementStructureReference := "x".toList,
                    nExpression := some [(">", 1), ("<", 5)],
                    minimumNumberOfOccurrences := 2,
                    maximumNumberOfOccurrences := 4 }, 13) :=
  ⟨C3_general, ⟨rfl, rfl, rfl, rfl, rfl, rfl⟩, rfl, rfl, rfl, rfl⟩

/-- Claim C3 witness: the general statement applied to the n-expression
`0 <= n <= 5`: the prefix `0 <=` is recorded as the negated comparison
`(">=", 0)`. -/
theorem C3_witness :
    ∃ L, parseNExpression
        (['0'] ++ ' ' :: ("<=".toList ++ ' ' :: 'n' :: ' ' ::
          ("<=".toList ++ ' ' :: (['5'] ++ [')'])))) 0
      = .ok (some [(negateOperator "<=", digitsToNat ['0']),
                   ("<=", digitsToNat ['5'])], L) :=
  C3_nExpression_prefix_negation.1 ['0'] ['5'] "<=" "<=" (by decide) (by decide)
    (by decide) (by decide) (by decide) (by decide)

/-! ## Claim C5: reference lookup lets local structures shadow imported ones -/

theorem lookupLastStructure_mem (l : List Structure) (r : Text) (s : Structure)
    (h : lookupLastStructure l r = some s) : s ∈ l ∧ s.reference = r := by
  induction l with
  | nil => cases h
  | cons x xs ih =>
      rw [lookupLastStructure] at h
      split at h
      · rename_i y hy
        cases h
        rcases ih hy with ⟨h1, h2⟩
        exact ⟨List.mem_cons_of_mem x h1, h2⟩
      · split at h
        · cases h
          exact ⟨List.mem_cons_self _ _, by assumption⟩
        · cases h

theorem lookupLastStructure_isSome (l : List Structure) (r : Text)
    (h : ∃ s ∈ l, s.reference = r) : ∃ s, lookupLastStructure l r = some s := by
  induction l with
  | nil => rcases h with ⟨s, hs, _⟩; cases hs
  | cons x xs ih =>
      rw [lookupLastStructure]
      rcases hlx : lookupLastStructure xs r with _ | y
      · rcases h with ⟨s, hs, hr⟩
        rcases List.mem_cons.mp hs with rfl | hs2
        · exact ⟨s, by rw [if_pos hr]⟩
        · rcases ih ⟨s, hs2, hr⟩ with ⟨y, hy⟩
          rw [hlx] at hy; cases hy
      · exact ⟨y, rfl⟩

theorem lookupLastStructure_append_right (pre loc : List Structure) (r : Text)
    (h : ∃ s ∈ loc, s.reference = r) :
    lookupLastStructure (pre ++ loc) r = lookupLastStructure loc r := by
  induction pre with
  | nil => rfl
  | cons x xs ih =>
      show lookupLastStructure (x :: (xs ++ loc)) r = _
      rw [lookupLastStructure, ih]
      rcases lookupLastStructure_isSome loc r h with ⟨s, hs⟩
      rw [hs]


/-- Claim C5: `Schema.getStructureByReference` looks a reference up over the
concatenation of all dependency structures followed by the local structures,
the later entries overwriting the earlier ones in the lookup dictionary; so
whenever a locally defined structure carries the requested reference - in
particular when a local structure and an imported one share it - the returned
structure is a locally defined one. -/
theorem C5_local_structures_shadow_imported (schema : Schema) (r : Text)
    (h : ∃ s ∈ schema.structures, s.reference = r) :
    ∃ s, schema.getStructureByReference r = some s ∧ s ∈ schema.structures
      ∧ s.reference = r := by
  rcases lookupLastStructure_isSome schema.structures r h with ⟨s, hs⟩
  refine ⟨s, ?_, ?_, ?_⟩
  · rw [Schema.getStructureByReference, Schema.allStructures,
      lookupLastStructure_append_right _ _ _ h, hs]
  · exact (lookupLastStructure_mem _ _ _ hs).1
  · exact (lookupLastStructure_mem _ _ _ hs).2

/-- Claim C5 witness: a schema whose single dependency defines a data
structure `x` while the schema locally defines an element structure `x`; the
lookup returns the local element structure. -/
theorem C5_witness :
    (∃ s ∈ (Schema.mk [] [.element { reference := "x".toList }]
        [Schema.mk [] [.data { reference := "x".toList }] []]).structures,
      s.reference = "x".toList)
  ∧ (∃ s, (Schema.mk [] [.element { reference := "x".toList }]
        [Schema.mk [] [.data { reference := "x".toList }] []]).getStructureByReference
          "x".toList = some s
      ∧ s ∈ (Schema.mk [] [.element { reference := "x".toList }]
          [Schema.mk [] [.data { reference := "x".toList }] []]).structures
      ∧ s.reference = "x".toList)
  ∧ (Schema.mk [] [.element { reference := "x".toList }]
      [Schema.mk [] [.data { reference := "x".toList }] []]).getStructureByReference
        "x".toList = some (.element { reference := "x".toList }) :=
  ⟨⟨.element { reference := "x".toList }, List.mem_singleton.mpr rfl, rfl⟩,
   C5_local_structures_shadow_imported _ "x".toList
     ⟨.element { reference := "x".toList }, List.mem_singleton.mpr rfl, rfl⟩,
   rfl⟩

/-! ## Claim C4: the element-vs-data ambiguity resolution pass -/

theorem StructEquiv.refl_all (l : List Structure) : List.Forall₂ StructEquiv l l := by
  induction l with
  | nil => exact List.Forall₂.nil
  | cons x xs ih => exact List.Forall₂.cons ⟨rfl, fun d => Iff.rfl⟩ ih

theorem lookup_agree (l l' : List Structure) (h : List.Forall₂ StructEquiv l l')
    (r : Text) :
    (lookupLastStructure l r = none ↔ lookupLastStructure l' r = none)
    ∧ ∀ d, (lookupLastStructure l r = some (.data d)
        ↔ lookupLastStructure l' r = some (.data d)) := by
  induction h with
  | nil => exact ⟨Iff.rfl, fun d => Iff.rfl⟩
  | cons hxy hrest ih =>
      rename_i x y xs ys
      constructor
      · rw [lookupLastStructure, lookupLastStructure]
        rcases h1 : lookupLastStructure xs r with _ | u <;>
          rcases h2 : lookupLastStructure ys r with _ | v
        · rw [hxy.1]
          rcases Decidable.em (y.reference = r) with hy | hy
          · rw [if_pos hy, if_pos hy]; simp
          · rw [if_neg hy, if_neg hy]
        · exact absurd (ih.1.mp h1) (by simp [h2])
        · exact absurd (ih.1.mpr h2) (by simp [h1])
        · simp
      · intro d
        rw [lookupLastStructure, lookupLastStructure]
        rcases h1 : lookupLastStructure xs r with _ | u <;>
          rcases h2 : lookupLastStructure ys r with _ | v
        · rw [hxy.1]
          rcases Decidable.em (y.reference = r) with hy | hy
          · rw [if_pos hy, if_pos hy]
            simpa using hxy.2 d
          · rw [if_neg hy, if_neg hy]
        · exact absurd (ih.1.mp h1) (by simp [h2])
        · exact absurd (ih.1.mpr h2) (by simp [h1])
        · have := (ih.2 d)
          rw [h1, h2] at this
          simpa using this

theorem resolveContentStep_chr (sch : Schema) (i : Nat) :
    (resolveContentStep sch i).dependencies = sch.dependencies
    ∧ ((resolveContentStep sch i).structures = sch.structures
      ∨ ∃ e eur d, sch.structures.get? i = some (.element e)
          ∧ e.allowedContent = some (.elementUsage eur)
          ∧ sch.getStructureByReference eur.elementStructureReference
              = some (.data d)
          ∧ (resolveContentStep sch i).structures
            = sch.structures.set i (.element
                { e with valueTypeReference := d.reference,
                         allowedContent := some (.dataUsage d.reference) })) := by
  obtain ⟨f, strs, deps⟩ := sch
  unfold resolveContentStep
  repeat' split
  all_goals simp_all [Schema.setStructures, Schema.structures, Schema.dependencies]

theorem resolveContentStep_get_ne (sch : Schema) (i j : Nat) (h : i ≠ j) :
    (resolveContentStep sch i).structures.get? j = sch.structures.get? j := by
  rcases (resolveContentStep_chr sch i).2 with heq | ⟨e, eur, d, _, _, _, heq⟩
  · rw [heq]
  · rw [heq]
    simp only [List.get?_eq_getElem?]
    rw [List.getElem?_set_ne h]

theorem resolveFold_untouched (idxs : List Nat) :
    ∀ (sch : Schema) (j : Nat), j ∉ idxs →
      (idxs.foldl resolveContentStep sch).structures.get? j
        = sch.structures.get? j := by
  induction idxs with
  | nil => intro sch j _; rfl
  | cons i rest ih =>
      intro sch j hj
      rw [List.foldl_cons, ih _ j (fun hm => hj (List.mem_cons_of_mem i hm)),
        resolveContentStep_get_ne sch i j
          (fun he => hj (he ▸ List.mem_cons_self i rest))]

theorem forall₂_equiv_set (l : List Structure) (i : Nat) (v : Structure)
    (h : ∀ x, l.get? i = some x → StructEquiv x v) :
    List.Forall₂ StructEquiv l (l.set i v) := by
  induction l generalizing i with
  | nil => exact List.Forall₂.nil
  | cons x xs ih =>
      cases i with
      | zero =>
          exact List.Forall₂.cons (h x rfl) (StructEquiv.refl_all xs)
      | succ n =>
          exact List.Forall₂.cons ⟨rfl, fun d => Iff.rfl⟩ (ih n (fun y hy => h y hy))

theorem resolveContentStep_equiv (sch : Schema) (i : Nat) :
    List.Forall₂ StructEquiv sch.allStructures
      (resolveContentStep sch i).allStructures := by
  rcases resolveContentStep_chr sch i with ⟨hdep, heq | ⟨e, eur, d, hget, _, _, heq⟩⟩
  · rw [Schema.allStructures, Schema.allStructures, hdep, heq]
    exact StructEquiv.refl_all _
  · rw [Schema.allStructures, Schema.allStructures, hdep, heq]
    refine List.rel_append (StructEquiv.refl_all _) ?_
    refine forall₂_equiv_set _ _ _ ?_
    intro x hx
    rw [hget] at hx
    cases hx
    exact ⟨rfl, fun d2 => by constructor <;> (intro hc; cases hc)⟩

theorem structEquiv_trans (x y z : Structure) (h1 : StructEquiv x y)
    (h2 : StructEquiv y z) : StructEquiv x z :=
  ⟨h1.1.trans h2.1, fun d => (h1.2 d).trans (h2.2 d)⟩

theorem forall₂_equiv_trans (a b c : List Structure)
    (h1 : List.Forall₂ StructEquiv a b) (h2 : List.Forall₂ StructEquiv b c) :
    List.Forall₂ StructEquiv a c := by
  induction h1 generalizing c with
  | nil => cases h2; exact List.Forall₂.nil
  | cons hxy hrest ih =>
      cases h2 with
      | cons hyz hrest2 =>
          exact List.Forall₂.cons (structEquiv_trans _ _ _ hxy hyz) (ih _ hrest2)

theorem structures_setStructures (sch : Schema) (l : List Structure) :
    (sch.setStructures l).structures = l := by cases sch; rfl

theorem resolveContentStep_spec (schema sch : Schema) (i : Nat)
    (hequiv : List.Forall₂ StructEquiv schema.allStructures sch.allStructures)
    (hsame : sch.structures.get? i = schema.structures.get? i) :
    (resolveContentStep sch i).structures.get? i
      = (schema.structures.get? i).map (resolveSpecAt schema) := by
  have hagree := lookup_agree schema.allStructures sch.allStructures hequiv
  unfold resolveContentStep
  rw [hsame]
  rcases hget : schema.structures.get? i with _ | s
  · simp [hsame, hget, -List.get?_eq_getElem?]
  rcases s with d0 | a0 | e0 | p0 | ar0 | o0
  case data => simp [hsame, hget, resolveSpecAt, -List.get?_eq_getElem?]
  case attr => simp [hsame, hget, resolveSpecAt, -List.get?_eq_getElem?]
  case prop => simp [hsame, hget, resolveSpecAt, -List.get?_eq_getElem?]
  case array => simp [hsame, hget, resolveSpecAt, -List.get?_eq_getElem?]
  case obj => simp [hsame, hget, resolveSpecAt, -List.get?_eq_getElem?]
  case element =>
    rcases hc : e0.allowedContent with _ | c
    · simp [hsame, hget, resolveSpecAt, -List.get?_eq_getElem?, hc]
    rcases c with eur0 | r0 | _ | _ | l0 | l0 | l0
    case dataUsage => simp [hsame, hget, resolveSpecAt, -List.get?_eq_getElem?, hc]
    case anyElements => simp [hsame, hget, resolveSpecAt, -List.get?_eq_getElem?, hc]
    case anyText => simp [hsame, hget, resolveSpecAt, -List.get?_eq_getElem?, hc]
    case orderedList => simp [hsame, hget, resolveSpecAt, -List.get?_eq_getElem?, hc]
    case unorderedList => simp [hsame, hget, resolveSpecAt, -List.get?_eq_getElem?, hc]
    case structureChoice => simp [hsame, hget, resolveSpecAt, -List.get?_eq_getElem?, hc]
    case elementUsage =>
      have hlt : i < sch.structures.length := by
        rcases List.get?_eq_some.mp (hsame.trans hget) with ⟨hbound, _⟩
        exact hbound
      rcases hL : sch.getStructureByReference eur0.elementStructureReference
        with _ | y
      · have hL0 : schema.getStructureByReference
            eur0.elementStructureReference = none :=
          (hagree eur0.elementStructureReference).1.mpr hL
        simp [hsame, hget, resolveSpecAt, -List.get?_eq_getElem?, hc, hL, hL0]
      rcases y with dy | ay | ey | py | ary | oy
      case data =>
        have hL0 : schema.getStructureByReference
            eur0.elementStructureReference = some (.data dy) :=
          ((hagree eur0.elementStructureReference).2 dy).mpr hL
        simp only [hc, hL]
        rw [structures_setStructures]
        simp only [List.get?_eq_getElem?]
        rw [List.getElem?_set_eq_of_lt _ hlt]
        simp [resolveSpecAt, hc, hL0]
      all_goals
        rcases hS : schema.getStructureByReference eur0.elementStructureReference
          with _ | z
        · have hn : sch.getStructureByReference eur0.elementStructureReference
              = none := (hagree _).1.mp hS
          rw [hn] at hL
          exact Option.noConfusion hL
        · rcases z with dz | _ | _ | _ | _ | _
          · have hd2 : sch.getStructureByReference eur0.elementStructureReference
                = some (.data dz) := ((hagree _).2 dz).mp hS
            rw [hd2] at hL
            simp at hL
          all_goals
            simp [hsame, hget, resolveSpecAt, hc, hS, hL, -List.get?_eq_getElem?]

theorem resolveFold_spec (idxs : List Nat) :
    ∀ (schema sch : Schema), idxs.Nodup →
      List.Forall₂ StructEquiv schema.allStructures sch.allStructures →
      (∀ j ∈ idxs, sch.structures.get? j = schema.structures.get? j) →
      ∀ j ∈ idxs, (idxs.foldl resolveContentStep sch).structures.get? j
        = (schema.structures.get? j).map (resolveSpecAt schema) := by
  induction idxs with
  | nil => intro schema sch _ _ _ j hj; cases hj
  | cons i rest ih =>
      intro schema sch hnd hequiv hsame j hj
      rw [List.foldl_cons]
      have hni : i ∉ rest := (List.nodup_cons.mp hnd).1
      rcases List.mem_cons.mp hj with rfl | hjr
      · rw [resolveFold_untouched rest _ j hni]
        exact resolveContentStep_spec schema sch j hequiv
          (hsame j (List.mem_cons_self _ _))
      · refine ih schema (resolveContentStep sch i) (List.nodup_cons.mp hnd).2
          (forall₂_equiv_trans _ _ _ hequiv (resolveContentStep_equiv sch i))
          ?_ j hjr
        intro k hk
        rw [resolveContentStep_get_ne sch i k (fun he => hni (he ▸ hk))]
        exact hsame k (List.mem_cons_of_mem i hk)

/-- Claim C4: after the ambiguity-resolution pass, every `ElementStructure`
whose `allowedContent` parsed as a bare `ElementUsageReference` whose
referenced structure is a `DataStructure` has its `allowedContent` rewritten
to a `DataUsageReference` naming that data structure and its
`valueTypeReference` set to that data structure's reference; when the
referenced structure is not a `DataStructure` (or the reference resolves to
nothing), the structure is kept unchanged - stated as: position `i` of the
pass's output is `resolveSpecAt` of position `i` of the input. -/
theorem C4_ambiguity_resolution_rewrites (schema : Schema) (i : Nat) :
    (resolveDataUsageReferences schema).structures.get? i
      = (schema.structures.get? i).map (resolveSpecAt schema) := by
  by_cases hi : i < schema.structures.length
  · exact resolveFold_spec (List.range schema.structures.length) schema schema
      (List.nodup_range _) (StructEquiv.refl_all _) (fun _ _ => rfl) i
      (List.mem_range.mpr hi)
  · have h1 : schema.structures.get? i = none :=
      List.get?_len_le (Nat.le_of_not_lt hi)
    rw [resolveDataUsageReferences,
      resolveFold_untouched _ _ i (fun hm => hi (List.mem_range.mp hm)), h1]
    rfl

/-! ## Claim C1: the reachability marking pass -/

open Relation

theorem mark_props (structs : List Structure) : ∀ fuel : Nat,
    (∀ st i st2, markStructure structs fuel st i = .ok st2 →
       (∀ j ∈ st, j ∈ st2)
       ∧ (∀ j ∈ st2, j ∈ st ∨ ReflTransGen (markStep structs) i j)
       ∧ (∀ j, ReflTransGen (markStep structs) i j → j ∈ st2))
    ∧ (∀ st ts st2, markList structs fuel st ts = .ok st2 →
       (∀ j ∈ st, j ∈ st2)
       ∧ (∀ j ∈ st2, j ∈ st ∨ ∃ rc, rc ∈ ts ∧ ∃ k,
            lookupLastIdx structs rc.1 = some k
            ∧ ReflTransGen (markStep structs) k j)
       ∧ (∀ rc ∈ ts, ∀ k, lookupLastIdx structs rc.1 = some k →
            ∀ j, ReflTransGen (markStep structs) k j → j ∈ st2)) := by
  intro fuel
  induction fuel with
  | zero =>
      constructor
      · intro st i st2 h
        cases h
      · intro st ts st2 h
        cases ts with
        | nil =>
            rw [markList] at h
            cases h
            exact ⟨fun j hj => hj, fun j hj => Or.inl hj,
              fun rc hrc => absurd hrc (List.not_mem_nil rc)⟩
        | cons t ts => cases h
  | succ fuel ih =>
      constructor
      · intro st i st2 h
        rw [markStructure] at h
        rcases hget : structs.get? i with _ | s
        · rw [hget] at h; cases h
        · rw [hget] at h
          have ihml := ih.2 _ _ _ h
          refine ⟨fun j hj => ihml.1 j (List.mem_cons_of_mem i hj), ?_, ?_⟩
          · intro j hj
            rcases ihml.2.1 j hj with hj2 | ⟨rc, hrc, k, hlk, hrtg⟩
            · rcases List.mem_cons.mp hj2 with rfl | hj3
              · exact Or.inr ReflTransGen.refl
              · exact Or.inl hj3
            · exact Or.inr (ReflTransGen.head ⟨s, hget, rc, hrc, hlk⟩ hrtg)
          · intro j hrtg
            rcases (ReflTransGen.cases_head hrtg) with rfl | ⟨k, hstep, hrest⟩
            · exact ihml.1 i (List.mem_cons_self i st)
            · rcases hstep with ⟨s2, hget2, rc, hrc, hlk⟩
              rw [hget] at hget2
              cases hget2
              exact ihml.2.2 rc hrc k hlk j hrest
      · intro st ts st2 h
        cases ts with
        | nil =>
            rw [markList] at h
            cases h
            exact ⟨fun j hj => hj, fun j hj => Or.inl hj,
              fun rc hrc => absurd hrc (List.not_mem_nil rc)⟩
        | cons rc0 ts =>
            obtain ⟨r, c⟩ := rc0
            rw [markList] at h
            split at h
            · rename_i k0 hlk
              split at h
              case _ stm hms =>
                have ihms := ih.1 _ _ _ hms
                have ihml2 := ih.2 _ _ _ h
                refine ⟨fun j hj => ihml2.1 j (ihms.1 j hj), ?_, ?_⟩
                · intro j hj
                  rcases ihml2.2.1 j hj with hj2 | ⟨rc, hrc, k, hk, hrtg⟩
                  · rcases ihms.2.1 j hj2 with hj3 | hrtg
                    · exact Or.inl hj3
                    · exact Or.inr ⟨(r, c), List.mem_cons_self _ _, k0, hlk, hrtg⟩
                  · exact Or.inr ⟨rc, List.mem_cons_of_mem _ hrc, k, hk, hrtg⟩
                · intro rc hrc k hk j hrtg
                  rcases List.mem_cons.mp hrc with rfl | hrc2
                  · rw [hlk] at hk
                    cases hk
                    exact ihml2.1 j (ihms.2.2 j hrtg)
                  · exact ihml2.2.2 rc hrc2 k hk j hrtg
              all_goals cases h
            · rename_i hlk
              split at h
              · cases h
              · have ihml2 := ih.2 _ _ _ h
                refine ⟨ihml2.1, ?_, ?_⟩
                · intro j hj
                  rcases ihml2.2.1 j hj with hj2 | ⟨rc, hrc, k, hk, hrtg⟩
                  · exact Or.inl hj2
                  · exact Or.inr ⟨rc, List.mem_cons_of_mem _ hrc, k, hk, hrtg⟩
                · intro rc hrc k hk j hrtg
                  rcases List.mem_cons.mp hrc with rfl | hrc2
                  · rw [hlk] at hk; cases hk
                  · exact ihml2.2.2 rc hrc2 k hk j hrtg

theorem markRoots_props (structs : List Structure) (fuel : Nat) :
    ∀ roots st st2, markRoots structs fuel st roots = .ok st2 →
      (∀ j ∈ st, j ∈ st2)
      ∧ (∀ j ∈ st2, j ∈ st ∨ ∃ r ∈ roots, ReflTransGen (markStep structs) r j)
      ∧ (∀ r ∈ roots, ∀ j, ReflTransGen (markStep structs) r j → j ∈ st2) := by
  intro roots
  induction roots with
  | nil =>
      intro st st2 h
      rw [markRoots] at h
      cases h
      exact ⟨fun j hj => hj, fun j hj => Or.inl hj,
        fun r hr => absurd hr (List.not_mem_nil r)⟩
  | cons i is ih =>
      intro st st2 h
      rw [markRoots] at h
      split at h
      case _ stm hms =>
        have ihms := (mark_props structs fuel).1 _ _ _ hms
        have ihr := ih _ _ h
        refine ⟨fun j hj => ihr.1 j (ihms.1 j hj), ?_, ?_⟩
        · intro j hj
          rcases ihr.2.1 j hj with hj2 | ⟨r, hr, hrtg⟩
          · rcases ihms.2.1 j hj2 with hj3 | hrtg
            · exact Or.inl hj3
            · exact Or.inr ⟨i, List.mem_cons_self _ _, hrtg⟩
          · exact Or.inr ⟨r, List.mem_cons_of_mem _ hr, hrtg⟩
        · intro r hr j hrtg
          rcases List.mem_cons.mp hr with rfl | hr2
          · exact ihr.1 j (ihms.2.2 j hrtg)
          · exact ihr.2.2 r hr2 j hrtg
      all_goals cases h

theorem initialMarks_eq_nil (structs : List Structure)
    (hflags : ∀ s ∈ structs, s.isUsed = false) : initialMarks structs = [] := by
  unfold initialMarks
  have hf : structs.enum.filter (fun si => si.2.isUsed) = [] := by
    rw [List.filter_eq_nil_iff]
    intro si hsi
    have h2 : si.2 ∈ structs := by
      have := List.mem_map_of_mem Prod.snd hsi
      rwa [List.enum_map_snd] at this
    simp [hflags si.2 h2]
  rw [hf]
  rfl

/-- Claim C1 (corrected): the marking pass starts only from the root-capable
element structures - `Schema.setIsUsed` iterates `getRootElementStructures()`
alone, so root-capable `ObjectStructure`s are not starting points, contrary
to the claim.  What does hold, stated here: when no `isUsed` flag is set
beforehand and `setIsUsed` completes, the marked set is exactly the set of
structures reachable from some root element structure through the
base-structure, attribute-usage, content-usage and property-usage hops of
`markStep`. -/
theorem C1_marking_is_root_element_reachability (schema : Schema)
    (fuel : Nat) (st : List Nat)
    (hflags : ∀ s ∈ schema.allStructures, s.isUsed = false)
    (h : schema.setIsUsedMarks fuel = .ok st) :
    ∀ i, i ∈ st ↔ ∃ r ∈ rootElementIdxs schema.allStructures,
        ReflTransGen (markStep schema.allStructures) r i := by
  rw [Schema.setIsUsedMarks, initialMarks_eq_nil _ hflags] at h
  have hp := markRoots_props schema.allStructures fuel _ _ _ h
  intro i
  constructor
  · intro hi
    rcases hp.2.1 i hi with h0 | hx
    · exact absurd h0 (List.not_mem_nil i)
    · exact hx
  · rintro ⟨r, hr, hrtg⟩
    exact hp.2.2 r hr i hrtg

/-- Claim C1 counterexample: a schema whose only structure is a root-capable
`ObjectStructure` comes out of the full `parseSchema` pipeline with
`isUsed = false` - the marking pass never starts from root objects, so the
original claim (that everything reachable from a root-capable
`ObjectStructure`, the object itself included, is marked used) is false. -/
theorem C1_counterexample :
    ∃ o : ObjectStructure,
      parseSchemaText 100 "root object o \x7b \x7d".toList
        = .ok (Schema.mk [] [.obj o] [])
      ∧ o.canBeRootObject = true ∧ o.isUsed = false :=
  ⟨{ reference := "o".toList, canBeRootObject := true }, rfl, rfl, rfl⟩

/-- The corrected C1 theorem applied to `markWitnessSchema`: the flags start
all-false, marking completes with exactly indices 1 and 0 marked, and the
theorem turns membership of index 1 into reachability from a root element. -/
theorem C1_witness :
    (∀ s ∈ markWitnessSchema.allStructures, s.isUsed = false)
    ∧ markWitnessSchema.setIsUsedMarks 10 = .ok [1, 0]
    ∧ ((1 : Nat) ∈ [1, 0] ↔ ∃ r ∈ rootElementIdxs markWitnessSchema.allStructures,
        ReflTransGen (markStep markWitnessSchema.allStructures) r 1) :=
  ⟨by decide, rfl,
    C1_marking_is_root_element_reachability markWitnessSchema 10 [1, 0]
      (by decide) rfl 1⟩


theorem MsgOk.expected (w : Text) (p : Nat) : MsgOk (expectedAtPositionMsg w p) :=
  Or.inl ⟨w, p, rfl⟩

theorem MsgOk.path (p : Nat) : MsgOk (pathStringMsg p) :=
  Or.inr (Or.inl ⟨p, rfl⟩)

theorem MsgOk.sep (p : Nat) : MsgOk (separatorsMsg p) :=
  Or.inr (Or.inr (Or.inl ⟨p, rfl⟩))

theorem MsgOk.dup (r : Text) : MsgOk (duplicateReferenceMsg r) :=
  Or.inr (Or.inr (Or.inr (Or.inl ⟨r, rfl⟩)))

theorem MsgOk.invName (n : Text) : MsgOk (invalidPropertyNameMsg n) :=
  Or.inr (Or.inr (Or.inr (Or.inr (Or.inl ⟨n, rfl⟩))))

theorem MsgOk.propVal (w n : Text) : MsgOk (propertyValueMsg w n) :=
  Or.inr (Or.inr (Or.inr (Or.inr (Or.inr ⟨w, n, rfl⟩))))

theorem parseString_err (t : Text) (p : Nat) (e : Text)
    (h : parseString t p = .err e) : MsgOk e := by
  simp only [parseString] at h
  repeat' split at h
  all_goals cases h <;> exact MsgOk.expected _ _

theorem parseComment_err (t : Text) (p : Nat) (e : Text)
    (h : parseComment t p = .err e) : MsgOk e := by
  simp only [parseComment] at h
  repeat' split at h
  all_goals cases h <;> exact MsgOk.expected _ _

theorem nExpressionTail_err (t : Text) (q : Nat) (pre : Option (String × Nat))
    (e : Text) (h : nExpressionTail t q pre = .err e) : MsgOk e := by
  simp only [nExpressionTail] at h
  repeat' split at h
  all_goals cases h <;> exact MsgOk.expected _ _

theorem parseNExpression_err (t : Text) (p : Nat) (e : Text)
    (h : parseNExpression t p = .err e) : MsgOk e := by
  simp only [parseNExpression] at h
  split at h
  · exact nExpressionTail_err _ _ _ _ h
  · split at h
    · cases h
      exact MsgOk.expected _ _
    · exact nExpressionTail_err _ _ _ _ h

theorem parseElementUsageReference_err (t : Text) (p : Nat) (e : Text)
    (h : parseElementUsageReference t p = .err e) : MsgOk e := by
  simp only [parseElementUsageReference] at h
  repeat' split at h
  all_goals first
    | exact parseNExpression_err _ _ _ h
    | (cases h <;> exact MsgOk.expected _ _)
    | (cases h <;> (rename_i heq; exact parseNExpression_err _ _ _ heq))

theorem parseAttributeUsageReference_err (t : Text) (p : Nat) (e : Text)
    (h : parseAttributeUsageReference t p = .err e) : MsgOk e := by
  simp only [parseAttributeUsageReference] at h
  repeat' split at h
  all_goals cases h <;> exact MsgOk.expected _ _

theorem parsePropertyUsageReference_err (t : Text) (p : Nat) (e : Text)
    (h : parsePropertyUsageReference t p = .err e) : MsgOk e := by
  simp only [parsePropertyUsageReference] at h
  repeat' split at h
  all_goals cases h <;> exact MsgOk.expected _ _

theorem wsCommentWs_err (t : Text) (p : Nat) (e : Text)
    (h : wsCommentWs t p = .err e) : MsgOk e := by
  simp only [wsCommentWs] at h
  split at h
  · cases h
  · cases h
    rename_i heq
    exact parseComment_err _ _ _ heq
  · cases h
  · cases h

theorem sepCheck_err (t : Text) (bracketType separatorType : String) (n m : Nat)
    (e : Text) (h : sepCheck t bracketType separatorType n m = .err e) :
    MsgOk e := by
  simp only [sepCheck] at h
  repeat' split at h
  all_goals cases h <;> first
    | exact MsgOk.expected _ _
    | exact MsgOk.sep _

theorem subelement_err (t : Text) : ∀ fuel : Nat,
    (∀ p e, parseSubelementUsages fuel t p = .err e → MsgOk e)
    ∧ (∀ p e, parseSubelementList fuel t p = .err e → MsgOk e)
    ∧ (∀ p bt m1 e, subListFinish fuel t p bt m1 = .err e → MsgOk e)
    ∧ (∀ bt st m items n e, subListLoop fuel t bt st m items n = .err e →
        MsgOk e) := by
  intro fuel
  induction fuel with
  | zero =>
      exact ⟨fun p e h => (nomatch h), fun p e h => (nomatch h),
        fun p bt m1 e h => (nomatch h), fun bt st m items n e h => (nomatch h)⟩
  | succ fuel ih =>
      refine ⟨?_, ?_, ?_, ?_⟩
      · intro p e h
        rw [parseSubelementUsages] at h
        repeat' split at h
        all_goals first
          | exact ih.2.1 _ _ h
          | (cases h <;> (rename_i heq; exact parseElementUsageReference_err _ _ _ heq))
      · intro p e h
        rw [parseSubelementList] at h
        repeat' split at h
        all_goals first
          | exact ih.2.2.1 _ _ _ _ h
          | (cases h <;> (rename_i heq; exact wsCommentWs_err _ _ _ heq))
      · intro p bt m1 e h
        rw [subListFinish] at h
        repeat' split at h
        all_goals first
          | (cases h <;> exact MsgOk.expected _ _)
          | (cases h <;> (rename_i heq; first
              | exact wsCommentWs_err _ _ _ heq
              | exact ih.2.2.2 _ _ _ _ _ _ heq))
      · intro bt st m items n e h
        rw [subListLoop] at h
        repeat' split at h
        all_goals first
          | exact ih.2.2.2 _ _ _ _ _ _ h
          | (cases h <;> (rename_i heq; first
              | exact wsCommentWs_err _ _ _ heq
              | exact sepCheck_err _ _ _ _ _ _ heq
              | exact ih.1 _ _ heq))

theorem parseListFunction_err (t : Text) (p : Nat) (e : Text)
    (h : parseListFunction t p = .err e) : MsgOk e := by
  simp only [parseListFunction] at h
  repeat' split at h
  all_goals first
    | (cases h <;> exact MsgOk.expected _ _)
    | (cases h <;> (rename_i heq; exact parseString_err _ _ _ heq))

theorem parseListLoop_err {α : Type} (itemP : Text → Nat → PResult (Option α × Nat))
    (hItem : ∀ t p e, itemP t p = .err e → MsgOk e) :
    ∀ fuel t p items n e, parseListLoop itemP fuel t p items n = .err e →
      MsgOk e := by
  intro fuel
  induction fuel with
  | zero =>
      intro t p items n e h
      cases h
  | succ fuel ih =>
      intro t p items n e h
      simp only [parseListLoop] at h
      repeat' split at h
      all_goals first
        | exact ih _ _ _ _ _ h
        | (cases h <;> (rename_i heq; exact hItem _ _ _ heq))

theorem parseList_err {α : Type} (itemP : Text → Nat → PResult (Option α × Nat))
    (hItem : ∀ t p e, itemP t p = .err e → MsgOk e) (fuel : Nat) (t : Text)
    (p : Nat) (e : Text) (h : parseList itemP fuel t p = .err e) : MsgOk e :=
  parseListLoop_err itemP hItem fuel t p [] 0 e h

theorem parseIntegerItem_err (t : Text) (p : Nat) (e : Text)
    (h : parseIntegerItem t p = .err e) : MsgOk e := by
  simp only [parseIntegerItem] at h
  cases h

theorem parsePropertyValue_err (fuel : Nat) (t : Text) (p : Nat) (name e : Text)
    (h : parsePropertyValue fuel t p name = .err e) : MsgOk e := by
  rw [parsePropertyValue] at h
  by_cases h1 : name = "baseType".toList
  · rw [if_pos h1] at h
    repeat' split at h
    all_goals first
      | (cases h <;> exact MsgOk.propVal _ _)
      | (cases h <;> (rename_i heq; first
          | exact parseString_err _ _ _ heq
          | exact parseListFunction_err _ _ _ heq
          | exact (subelement_err t fuel).1 _ _ heq
          | exact parseList_err parseString parseString_err _ _ _ _ heq
          | exact parseList_err parseAttributeUsageReference parseAttributeUsageReference_err _ _ _ _ heq
          | exact parseList_err parsePropertyUsageReference parsePropertyUsageReference_err _ _ _ _ heq
          | exact parseList_err parseIntegerItem parseIntegerItem_err _ _ _ _ heq))
  · rw [if_neg h1] at h
    by_cases h2 : name = "tagName".toList
    · rw [if_pos h2] at h
      repeat' split at h
      all_goals first
        | (cases h <;> exact MsgOk.propVal _ _)
        | (cases h <;> (rename_i heq; first
            | exact parseString_err _ _ _ heq
            | exact parseListFunction_err _ _ _ heq
            | exact (subelement_err t fuel).1 _ _ heq
            | exact parseList_err parseString parseString_err _ _ _ _ heq
            | exact parseList_err parseAttributeUsageReference parseAttributeUsageReference_err _ _ _ _ heq
            | exact parseList_err parsePropertyUsageReference parsePropertyUsageReference_err _ _ _ _ heq
            | exact parseList_err parseIntegerItem parseIntegerItem_err _ _ _ _ heq))
    · rw [if_neg h2] at h
      by_cases h3 : name = "allowedPattern".toList
      · rw [if_pos h3] at h
        repeat' split at h
        all_goals first
          | (cases h <;> exact MsgOk.propVal _ _)
          | (cases h <;> (rename_i heq; first
              | exact parseString_err _ _ _ heq
              | exact parseListFunction_err _ _ _ heq
              | exact (subelement_err t fuel).1 _ _ heq
              | exact parseList_err parseString parseString_err _ _ _ _ heq
              | exact parseList_err parseAttributeUsageReference parseAttributeUsageReference_err _ _ _ _ heq
              | exact parseList_err parsePropertyUsageReference parsePropertyUsageReference_err _ _ _ _ heq
              | exact parseList_err parseIntegerItem parseIntegerItem_err _ _ _ _ heq))
      · rw [if_neg h3] at h
        by_cases h4 : name = "allowedValues".toList
        · rw [if_pos h4] at h
          repeat' split at h
          all_goals first
            | (cases h <;> exact MsgOk.propVal _ _)
            | (cases h <;> (rename_i heq; first
                | exact parseString_err _ _ _ heq
                | exact parseListFunction_err _ _ _ heq
                | exact (subelement_err t fuel).1 _ _ heq
                | exact parseList_err parseString parseString_err _ _ _ _ heq
                | exact parseList_err parseAttributeUsageReference parseAttributeUsageReference_err _ _ _ _ heq
                | exact parseList_err parsePropertyUsageReference parsePropertyUsageReference_err _ _ _ _ heq
                | exact parseList_err parseIntegerItem parseIntegerItem_err _ _ _ _ heq))
        · rw [if_neg h4] at h
          by_cases h5 : name = "minimumValue".toList
          · rw [if_pos h5] at h
            repeat' split at h
            all_goals first
              | (cases h <;> exact MsgOk.propVal _ _)
              | (cases h <;> (rename_i heq; first
                  | exact parseString_err _ _ _ heq
                  | exact parseListFunction_err _ _ _ heq
                  | exact (subelement_err t fuel).1 _ _ heq
                  | exact parseList_err parseString parseString_err _ _ _ _ heq
                  | exact parseList_err parseAttributeUsageReference parseAttributeUsageReference_err _ _ _ _ heq
                  | exact parseList_err parsePropertyUsageReference parsePropertyUsageReference_err _ _ _ _ heq
                  | exact parseList_err parseIntegerItem parseIntegerItem_err _ _ _ _ heq))
          · rw [if_neg h5] at h
            by_cases h6 : name = "maximumValue".toList
            · rw [if_pos h6] at h
              repeat' split at h
              all_goals first
                | (cases h <;> exact MsgOk.propVal _ _)
                | (cases h <;> (rename_i heq; first
                    | exact parseString_err _ _ _ heq
                    | exact parseListFunction_err _ _ _ heq
                    | exact (subelement_err t fuel).1 _ _ heq
                    | exact parseList_err parseString parseString_err _ _ _ _ heq
                    | exact parseList_err parseAttributeUsageReference parseAttributeUsageReference_err _ _ _ _ heq
                    | exact parseList_err parsePropertyUsageReference parsePropertyUsageReference_err _ _ _ _ heq
                    | exact parseList_err parseIntegerItem parseIntegerItem_err _ _ _ _ heq))
            · rw [if_neg h6] at h
              by_cases h7 : name = "defaultValue".toList
              · rw [if_pos h7] at h
                repeat' split at h
                all_goals first
                  | (cases h <;> exact MsgOk.propVal _ _)
                  | (cases h <;> (rename_i heq; first
                      | exact parseString_err _ _ _ heq
                      | exact parseListFunction_err _ _ _ heq
                      | exact (subelement_err t fuel).1 _ _ heq
                      | exact parseList_err parseString parseString_err _ _ _ _ heq
                      | exact parseList_err parseAttributeUsageReference parseAttributeUsageReference_err _ _ _ _ heq
                      | exact parseList_err parsePropertyUsageReference parsePropertyUsageReference_err _ _ _ _ heq
                      | exact parseList_err parseIntegerItem parseIntegerItem_err _ _ _ _ heq))
              · rw [if_neg h7] at h
                by_cases h8 : name = "valueType".toList
                · rw [if_pos h8] at h
                  repeat' split at h
                  all_goals first
                    | (cases h <;> exact MsgOk.propVal _ _)
                    | (cases h <;> (rename_i heq; first
                        | exact parseString_err _ _ _ heq
                        | exact parseListFunction_err _ _ _ heq
                        | exact (subelement_err t fuel).1 _ _ heq
                        | exact parseList_err parseString parseString_err _ _ _ _ heq
                        | exact parseList_err parseAttributeUsageReference parseAttributeUsageReference_err _ _ _ _ heq
                        | exact parseList_err parsePropertyUsageReference parsePropertyUsageReference_err _ _ _ _ heq
                        | exact parseList_err parseIntegerItem parseIntegerItem_err _ _ _ _ heq))
                · rw [if_neg h8] at h
                  by_cases h9 : name = "itemType".toList
                  · rw [if_pos h9] at h
                    repeat' split at h
                    all_goals first
                      | (cases h <;> exact MsgOk.propVal _ _)
                      | (cases h <;> (rename_i heq; first
                          | exact parseString_err _ _ _ heq
                          | exact parseListFunction_err _ _ _ heq
                          | exact (subelement_err t fuel).1 _ _ heq
                          | exact parseList_err parseString parseString_err _ _ _ _ heq
                          | exact parseList_err parseAttributeUsageReference parseAttributeUsageReference_err _ _ _ _ heq
                          | exact parseList_err parsePropertyUsageReference parsePropertyUsageReference_err _ _ _ _ heq
                          | exact parseList_err parseIntegerItem parseIntegerItem_err _ _ _ _ heq))
                  · rw [if_neg h9] at h
                    by_cases h10 : name = "attributes".toList
                    · rw [if_pos h10] at h
                      repeat' split at h
                      all_goals first
                        | (cases h <;> exact MsgOk.propVal _ _)
                        | (cases h <;> (rename_i heq; first
                            | exact parseString_err _ _ _ heq
                            | exact parseListFunction_err _ _ _ heq
                            | exact (subelement_err t fuel).1 _ _ heq
                            | exact parseList_err parseString parseString_err _ _ _ _ heq
                            | exact parseList_err parseAttributeUsageReference parseAttributeUsageReference_err _ _ _ _ heq
                            | exact parseList_err parsePropertyUsageReference parsePropertyUsageReference_err _ _ _ _ heq
                            | exact parseList_err parseIntegerItem parseIntegerItem_err _ _ _ _ heq))
                    · rw [if_neg h10] at h
                      by_cases h11 : name = "properties".toList
                      · rw [if_pos h11] at h
                        repeat' split at h
                        all_goals first
                          | (cases h <;> exact MsgOk.propVal _ _)
                          | (cases h <;> (rename_i heq; first
                              | exact parseString_err _ _ _ heq
                              | exact parseListFunction_err _ _ _ heq
                              | exact (subelement_err t fuel).1 _ _ heq
                              | exact parseList_err parseString parseString_err _ _ _ _ heq
                              | exact parseList_err parseAttributeUsageReference parseAttributeUsageReference_err _ _ _ _ heq
                              | exact parseList_err parsePropertyUsageReference parsePropertyUsageReference_err _ _ _ _ heq
                              | exact parseList_err parseIntegerItem parseIntegerItem_err _ _ _ _ heq))
                      · rw [if_neg h11] at h
                        by_cases h12 : name = "allowedContent".toList
                        · rw [if_pos h12] at h
                          repeat' split at h
                          all_goals first
                            | (cases h <;> exact MsgOk.propVal _ _)
                            | (cases h <;> (rename_i heq; first
                                | exact parseString_err _ _ _ heq
                                | exact parseListFunction_err _ _ _ heq
                                | exact (subelement_err t fuel).1 _ _ heq
                                | exact parseList_err parseString parseString_err _ _ _ _ heq
                                | exact parseList_err parseAttributeUsageReference parseAttributeUsageReference_err _ _ _ _ heq
                                | exact parseList_err parsePropertyUsageReference parsePropertyUsageReference_err _ _ _ _ heq
                                | exact parseList_err parseIntegerItem parseIntegerItem_err _ _ _ _ heq))
                        · rw [if_neg h12] at h
                          by_cases h13 : name = "isSelfClosing".toList
                          · rw [if_pos h13] at h
                            repeat' split at h
                            all_goals first
                              | (cases h <;> exact MsgOk.propVal _ _)
                              | (cases h <;> (rename_i heq; first
                                  | exact parseString_err _ _ _ heq
                                  | exact parseListFunction_err _ _ _ heq
                                  | exact (subelement_err t fuel).1 _ _ heq
                                  | exact parseList_err parseString parseString_err _ _ _ _ heq
                                  | exact parseList_err parseAttributeUsageReference parseAttributeUsageReference_err _ _ _ _ heq
                                  | exact parseList_err parsePropertyUsageReference parsePropertyUsageReference_err _ _ _ _ heq
                                  | exact parseList_err parseIntegerItem parseIntegerItem_err _ _ _ _ heq))
                          · rw [if_neg h13] at h
                            by_cases h14 : name = "lineBreaks".toList
                            · rw [if_pos h14] at h
                              repeat' split at h
                              all_goals first
                                | (cases h <;> exact MsgOk.propVal _ _)
                                | (cases h <;> (rename_i heq; first
                                    | exact parseString_err _ _ _ heq
                                    | exact parseListFunction_err _ _ _ heq
                                    | exact (subelement_err t fuel).1 _ _ heq
                                    | exact parseList_err parseString parseString_err _ _ _ _ heq
                                    | exact parseList_err parseAttributeUsageReference parseAttributeUsageReference_err _ _ _ _ heq
                                    | exact parseList_err parsePropertyUsageReference parsePropertyUsageReference_err _ _ _ _ heq
                                    | exact parseList_err parseIntegerItem parseIntegerItem_err _ _ _ _ heq))
                            · rw [if_neg h14] at h
                              cases h
                              exact MsgOk.propVal _ _

theorem parseProperty_err (fuel : Nat) (t : Text) (p : Nat) (e : Text)
    (h : parseProperty fuel t p = .err e) : MsgOk e := by
  simp only [parseProperty] at h
  repeat' split at h
  all_goals first
    | (cases h <;> first
        | exact MsgOk.invName _
        | exact MsgOk.expected _ _)
    | (cases h <;> (rename_i heq; exact parsePropertyValue_err _ _ _ _ _ heq))

theorem propertyLoop_err {α : Type} (applyP : α → Text → PropertyValue → α) :
    ∀ fuel t p acc e, propertyLoop applyP fuel t p acc = .err e → MsgOk e := by
  intro fuel
  induction fuel with
  | zero =>
      intro t p acc e h
      cases h
  | succ fuel ih =>
      intro t p acc e h
      rw [propertyLoop] at h
      repeat' split at h
      all_goals first
        | exact ih _ _ _ _ h
        | (cases h <;> (rename_i heq; exact parseProperty_err _ _ _ _ heq))

theorem parseStructureCommon_err {α : Type} (init : Text → α)
    (applyP : α → Text → PropertyValue → α) (fuel : Nat) (t : Text) (p : Nat)
    (e : Text) (h : parseStructureCommon init applyP fuel t p = .err e) :
    MsgOk e := by
  simp only [parseStructureCommon] at h
  rcases hr : parseReference t (parseWhiteSpace t p) with ⟨refOpt, p2⟩
  rw [hr] at h
  repeat' split at h
  all_goals first
    | (cases h <;> exact MsgOk.expected _ _)
    | (cases h <;> (rename_i heq; first
        | exact parseComment_err _ _ _ heq
        | exact propertyLoop_err applyP _ _ _ _ _ heq))

theorem parseDataStructure_err (fuel : Nat) (t : Text) (p : Nat) (e : Text)
    (h : parseDataStructure fuel t p = .err e) : MsgOk e :=
  parseStructureCommon_err _ _ _ _ _ _ h

theorem parseArrayStructure_err (fuel : Nat) (t : Text) (p : Nat) (e : Text)
    (h : parseArrayStructure fuel t p = .err e) : MsgOk e :=
  parseStructureCommon_err _ _ _ _ _ _ h

theorem parseObjectStructure_err (fuel : Nat) (t : Text) (p : Nat) (e : Text)
    (h : parseObjectStructure fuel t p = .err e) : MsgOk e :=
  parseStructureCommon_err _ _ _ _ _ _ h

theorem parseAttributeStructure_err (fuel : Nat) (t : Text) (p : Nat) (e : Text)
    (h : parseAttributeStructure fuel t p = .err e) : MsgOk e := by
  simp only [parseAttributeStructure] at h
  repeat' split at h
  all_goals first
    | (cases h <;> (rename_i heq; exact parseStructureCommon_err _ _ _ _ _ _ heq))
    | cases h

theorem parseElementStructure_err (fuel : Nat) (t : Text) (p : Nat) (e : Text)
    (h : parseElementStructure fuel t p = .err e) : MsgOk e := by
  simp only [parseElementStructure] at h
  repeat' split at h
  all_goals first
    | (cases h <;> (rename_i heq; exact parseStructureCommon_err _ _ _ _ _ _ heq))
    | cases h

theorem parsePropertyStructure_err (fuel : Nat) (t : Text) (p : Nat) (e : Text)
    (h : parsePropertyStructure fuel t p = .err e) : MsgOk e := by
  simp only [parsePropertyStructure] at h
  repeat' split at h
  all_goals first
    | (cases h <;> (rename_i heq; exact parseStructureCommon_err _ _ _ _ _ _ heq))
    | cases h

theorem parseStructure_err (fuel : Nat) (t : Text) (p : Nat) (e : Text)
    (h : parseStructure fuel t p = .err e) : MsgOk e := by
  simp only [parseStructure] at h
  by_cases h1 : cut t (parseWhiteSpace t p) 8 = "dataType".toList
  · rw [if_pos h1] at h
    rcases hd : parseDataStructure fuel t (parseWhiteSpace t p + 8)
      with ⟨d, pp⟩ | e2 | _ | _
    all_goals rw [hd] at h
    all_goals cases h
    exact parseDataStructure_err _ _ _ _ hd
  · rw [if_neg h1] at h
    by_cases h2 : cut t (parseWhiteSpace t p) 9 = "attribute".toList
    · rw [if_pos h2] at h
      rcases hd : parseAttributeStructure fuel t (parseWhiteSpace t p + 9)
        with ⟨d, pp⟩ | e2 | _ | _
      all_goals rw [hd] at h
      all_goals cases h
      exact parseAttributeStructure_err _ _ _ _ hd
    · rw [if_neg h2] at h
      by_cases h3 : cut t (parseWhiteSpace t p) 4 = "root".toList
      · rw [if_pos h3] at h
        by_cases ha : cut t (parseWhiteSpace t (parseWhiteSpace t p + 4)) 7 = "element".toList
        · rw [if_pos ha] at h
          rcases hd : parseElementStructure fuel t (parseWhiteSpace t (parseWhiteSpace t p + 4) + 7)
            with ⟨d, pp⟩ | e2 | _ | _
          all_goals rw [hd] at h
          all_goals cases h
          exact parseElementStructure_err _ _ _ _ hd
        · rw [if_neg ha] at h
          by_cases hb : cut t (parseWhiteSpace t (parseWhiteSpace t p + 4)) 6 = "object".toList
          · rw [if_pos hb] at h
            rcases hd : parseObjectStructure fuel t (parseWhiteSpace t (parseWhiteSpace t p + 4) + 6)
              with ⟨d, pp⟩ | e2 | _ | _
            all_goals rw [hd] at h
            all_goals cases h
            exact parseObjectStructure_err _ _ _ _ hd
          · rw [if_neg hb] at h
            cases h
            exact MsgOk.expected _ _
      · rw [if_neg h3] at h
        by_cases h4 : cut t (parseWhiteSpace t p) 7 = "element".toList
        · rw [if_pos h4] at h
          rcases hd : parseElementStructure fuel t (parseWhiteSpace t p + 7)
            with ⟨d, pp⟩ | e2 | _ | _
          all_goals rw [hd] at h
          all_goals cases h
          exact parseElementStructure_err _ _ _ _ hd
        · rw [if_neg h4] at h
          by_cases h5 : cut t (parseWhiteSpace t p) 8 = "property".toList
          · rw [if_pos h5] at h
            rcases hd : parsePropertyStructure fuel t (parseWhiteSpace t p + 8)
              with ⟨d, pp⟩ | e2 | _ | _
            all_goals rw [hd] at h
            all_goals cases h
            exact parsePropertyStructure_err _ _ _ _ hd
          · rw [if_neg h5] at h
            by_cases h6 : cut t (parseWhiteSpace t p) 5 = "array".toList
            · rw [if_pos h6] at h
              rcases hd : parseArrayStructure fuel t (parseWhiteSpace t p + 5)
                with ⟨d, pp⟩ | e2 | _ | _
              all_goals rw [hd] at h
              all_goals cases h
              exact parseArrayStructure_err _ _ _ _ hd
            · rw [if_neg h6] at h
              by_cases h7 : cut t (parseWhiteSpace t p) 6 = "object".toList
              · rw [if_pos h7] at h
                rcases hd : parseObjectStructure fuel t (parseWhiteSpace t p + 6)
                  with ⟨d, pp⟩ | e2 | _ | _
                all_goals rw [hd] at h
                all_goals cases h
                exact parseObjectStructure_err _ _ _ _ hd
              · rw [if_neg h7] at h
                cases h

theorem parseStructuresLoop_err :
    ∀ fuel t p structures references e,
      parseStructuresLoop fuel t p structures references = .err e → MsgOk e := by
  intro fuel
  induction fuel with
  | zero =>
      intro t p structures references e h
      cases h
  | succ fuel ih =>
      intro t p structures references e h
      simp only [parseStructuresLoop] at h
      repeat' split at h
      all_goals first
        | exact ih _ _ _ _ _ h
        | (cases h <;> first
            | exact MsgOk.dup _
            | (rename_i heq; first
                | exact parseComment_err _ _ _ heq
                | exact parseStructure_err _ _ _ _ heq))

theorem parseStructures_err (fuel : Nat) (t : Text) (p : Nat) (e : Text)
    (h : parseStructures fuel t p = .err e) : MsgOk e :=
  parseStructuresLoop_err fuel t p [] [] e h

theorem parseImportStatement_err (t : Text) (p : Nat) (e : Text)
    (h : parseImportStatement t p = .err e) : MsgOk e := by
  simp only [parseImportStatement] at h
  repeat' split at h
  all_goals first
    | (cases h <;> exact MsgOk.path _)
    | (cases h <;> (rename_i heq; exact parseString_err _ _ _ heq))

theorem parseImportStatementsLoop_err :
    ∀ fuel t p acc e, parseImportStatementsLoop fuel t p acc = .err e →
      MsgOk e := by
  intro fuel
  induction fuel with
  | zero =>
      intro t p acc e h
      cases h
  | succ fuel ih =>
      intro t p acc e h
      simp only [parseImportStatementsLoop] at h
      repeat' split at h
      all_goals first
        | exact ih _ _ _ _ h
        | (cases h <;> (rename_i heq; exact parseImportStatement_err _ _ _ heq))

theorem parseImportStatements_err (fuel : Nat) (t : Text) (p : Nat) (e : Text)
    (h : parseImportStatements fuel t p = .err e) : MsgOk e :=
  parseImportStatementsLoop_err fuel t (parseWhiteSpace t p) [] e h

theorem mark_no_err (structs : List Structure) : ∀ fuel : Nat,
    (∀ st i e, markStructure structs fuel st i ≠ .err e)
    ∧ (∀ st ts e, markList structs fuel st ts ≠ .err e) := by
  intro fuel
  induction fuel with
  | zero =>
      refine ⟨fun st i e h => (nomatch h), fun st ts e h => ?_⟩
      cases ts with
      | nil => rw [markList] at h; cases h
      | cons a ts => cases h
  | succ fuel ih =>
      constructor
      · intro st i e h
        rw [markStructure] at h
        split at h
        · cases h
        · exact ih.2 _ _ _ h
      · intro st ts e h
        cases ts with
        | nil => rw [markList] at h; cases h
        | cons rc0 ts =>
            obtain ⟨r, c⟩ := rc0
            rw [markList] at h
            split at h
            · split at h
              all_goals first
                | exact ih.2 _ _ _ h
                | (cases h <;> (rename_i heq; exact absurd heq (ih.1 _ _ _)))
                | cases h
            · split at h
              · cases h
              · exact ih.2 _ _ _ h

theorem markRoots_no_err (structs : List Structure) (fuel : Nat) :
    ∀ roots st e, markRoots structs fuel st roots ≠ .err e := by
  intro roots
  induction roots with
  | nil =>
      intro st e h
      rw [markRoots] at h
      cases h
  | cons i is ih =>
      intro st e h
      rw [markRoots] at h
      split at h
      all_goals first
        | exact ih _ _ h
        | (cases h <;> (rename_i heq; exact absurd heq ((mark_no_err structs fuel).1 _ _ _)))
        | cases h

theorem expandFold_no_err (fuel : Nat) : ∀ (idxs : List Nat)
    (acc : PResult (Schema × List DataStructure)),
    (∀ e, acc ≠ .err e) →
    ∀ e, idxs.foldl (expandListFunctionsStep fuel) acc ≠ .err e := by
  intro idxs
  induction idxs with
  | nil =>
      intro acc hacc e h
      exact hacc e h
  | cons i is ih =>
      intro acc hacc e h
      rw [List.foldl_cons] at h
      refine ih _ ?_ e h
      intro e2 hstep
      simp only [expandListFunctionsStep] at hstep
      repeat' split at hstep
      all_goals first
        | (rename_i heq; exact hacc _ heq)
        | (cases hstep <;> first
            | exact hacc _ rfl
            | (rename_i heq; exact absurd heq ((mark_no_err _ fuel).1 _ _ _)))
        | cases hstep

theorem expandListFunctions_err (schema : Schema) (fuel : Nat) (e : Text)
    (h : expandListFunctions schema fuel = .err e) : MsgOk e := by
  rw [expandListFunctions] at h
  split at h
  · cases h
  · cases h
    rename_i heq
    exact absurd heq (expandFold_no_err fuel _ (.ok (schema, []))
      (fun e2 h2 => (nomatch h2)) _)
  · cases h
  · cases h

theorem setIsUsedMarks_no_err (s : Schema) (fuel : Nat) (e : Text) :
    s.setIsUsedMarks fuel ≠ .err e :=
  markRoots_no_err s.allStructures fuel _ _ e

theorem parseSchemaText_err (fuel : Nat) (t : Text) (e : Text)
    (h : parseSchemaText fuel t = .err e) : MsgOk e := by
  simp only [parseSchemaText] at h
  repeat' split at h
  all_goals first
    | (cases h <;> (rename_i heq; first
        | exact parseComment_err _ _ _ heq
        | exact parseImportStatements_err _ _ _ _ heq
        | exact parseStructures_err _ _ _ _ heq
        | exact expandListFunctions_err _ _ _ heq
        | exact absurd heq (setIsUsedMarks_no_err _ _ _)))
    | cases h


/-- Claim C2 (corrected): not every parse error message includes the failure
offset.  Every error the parser raises is of one of six message shapes: the
three built by `expectedAtPositionMsg`, `pathStringMsg` and `separatorsMsg`
embed the character offset (`natToChars` of the position), but the duplicate
reference, invalid property name and property value messages carry no offset
at all. -/
theorem C2_error_message_shapes (fuel : Nat) (t e : Text)
    (h : parseSchemaText fuel t = .err e) : MsgOk e :=
  parseSchemaText_err fuel t e h

/-- Claim C2 counterexample: the invalid-property-name error contains no
digit at all, while a rendered offset (`natToChars` of the position, here 13)
is a nonempty string of digits - so this parse error includes no character
offset. -/
theorem C2_counterexample :
    parseSchemaText 100 "dataType d \x7b foo: 5; \x7d".toList
      = .err (invalidPropertyNameMsg "foo".toList)
    ∧ (invalidPropertyNameMsg "foo".toList).all (fun c => !c.isDigit) = true
    ∧ natToChars 13 ≠ [] ∧ (natToChars 13).all (fun c => c.isDigit) = true :=
  ⟨rfl, by decide, by decide, by decide⟩

/-- The C2 theorem applied to a concrete failing parse: `element x` without a
body raises `Expected '\x7b' at position 9.`, and the theorem classifies
that message. -/
theorem C2_witness :
    parseSchemaText 100 "element x".toList
      = .err (expectedAtPositionMsg "'\x7b'".toList 9)
    ∧ MsgOk (expectedAtPositionMsg "'\x7b'".toList 9) :=
  ⟨rfl, C2_error_message_shapes 100 "element x".toList _ rfl⟩

/-! ## Replay of the `test_schemata.py` parameterized cases -/

example : commentResult "/* This is a comment. */".toList 0 = some (some " This is a comment. ".toList) := by rfl
example : commentResult " This is a comment. */".toList 0 = some (none) := by rfl
example : commentResult "abc /* This is a comment. */".toList 0 = some (none) := by rfl
example : commentResult "abc /* This is a comment. */".toList 4 = some (some " This is a comment. ".toList) := by rfl
example : commentFails "/* This is a comment.".toList 0 = true := by rfl
example : intResult "123".toList 0 = some 123 := by rfl
example : intResult "12345".toList 0 = some 12345 := by rfl
example : intResult "000123".toList 0 = some 123 := by rfl
example : intResult "000000123".toList 0 = some 123 := by rfl
example : intResult "123 a b c".toList 0 = some 123 := by rfl
example : intResult "+123".toList 0 = none := by rfl
example : intResult "-123".toList 0 = none := by rfl
example : intResult " 123".toList 0 = none := by rfl
example : intResult ".123".toList 0 = none := by rfl
example : intResult "+123".toList 1 = some 123 := by rfl
example : intResult "-123".toList 1 = some 123 := by rfl
example : intResult " 123".toList 1 = some 123 := by rfl
example : intResult ".123".toList 1 = some 123 := by rfl
example : refResult "ref1".toList 0 = some "ref1".toList := by rfl
example : refResult "Ref1_a_b_c-d-e-f".toList 0 = some "Ref1_a_b_c-d-e-f".toList := by rfl
example : refResult "ref1   ".toList 0 = some "ref1".toList := by rfl
example : refResult "ref1 a b c".toList 0 = some "ref1".toList := by rfl
example : refResult "ref1 123".toList 0 = some "ref1".toList := by rfl
example : refResult "   ref1".toList 0 = none := by rfl
example : refResult "+ref1".toList 0 = none := by rfl
example : refResult "   ref1".toList 3 = some "ref1".toList := by rfl
example : refResult "+ref1".toList 1 = some "ref1".toList := by rfl
example : eurCheck "button_text".toList "button_text".toList 1 (1) = true := by rfl
example : eurCheck "button_text (optional)".toList "button_text".toList 0 (1) = true := by rfl
example : eurCheck "button_text (n >= 0)".toList "button_text".toList 0 (-1) = true := by rfl
example : eurCheck "button_text (n >= 1)".toList "button_text".toList 1 (-1) = true := by rfl
example : eurCheck "button_text (n > 0)".toList "button_text".toList 1 (-1) = true := by rfl
example : eurCheck "button_text (n > 1)".toList "button_text".toList 2 (-1) = true := by rfl
example : eurCheck "button_text (n <= 3)".toList "button_text".toList 0 (3) = true := by rfl
example : eurCheck "button_text (n <= 10)".toList "button_text".toList 0 (10) = true := by rfl
example : eurCheck "button_text (n < 10)".toList "button_text".toList 0 (9) = true := by rfl
example : eurCheck "button_text (0 <= n <= 5)".toList "button_text".toList 0 (5) = true := by rfl
example : eurCheck "button_text (0 < n <= 5)".toList "button_text".toList 1 (5) = true := by rfl
example : eurCheck "button_text (0 <= n < 5)".toList "button_text".toList 0 (4) = true := by rfl
example : eurCheck "button_text (0 < n < 5)".toList "button_text".toList 1 (4) = true := by rfl
example : eurCheck "button_text (1 <= n <= 5)".toList "button_text".toList 1 (5) = true := by rfl
example : eurCheck "button_text (1 < n <= 5)".toList "button_text".toList 2 (5) = true := by rfl
example : eurCheck "button_text (1 <= n < 5)".toList "button_text".toList 1 (4) = true := by rfl
example : eurCheck "button_text (1 < n < 5)".toList "button_text".toList 2 (4) = true := by rfl
example : eurFails "button_text (optional abc)".toList = true := by rfl
example : eurFails "button_text (optional, abc)".toList = true := by rfl
example : eurFails "button_text (optional, n <= 1)".toList = true := by rfl
example : eurFails "button_text (n >= 0, optional)".toList = true := by rfl
example : eurFails "button_text (n >= 0 >= 2)".toList = true := by rfl
example : eurFails "button_text (n >= 0, n <= 5)".toList = true := by rfl
example : eurFails "button_text (n >= 0 abc)".toList = true := by rfl
example : eurFails "button_text (n == 3)".toList = true := by rfl
example : eurFails "button_text (0 < n < 5 < n)".toList = true := by rfl
example : eurFails "button_text (0 << n)".toList = true := by rfl
example : aurCheck "id".toList "id".toList false = true := by rfl
example : aurCheck "id (optional)".toList "id".toList true = true := by rfl
example : aurFails "id (abc)".toList = true := by rfl
example : aurFails "id (optional abc)".toList = true := by rfl
example : aurFails "id (optional, abc)".toList = true := by rfl
example : aurFails "id (optional, n >= 0)".toList = true := by rfl
example : slCheck "\x7ba, b, c\x7d".toList .unordered 3 = true := by rfl
example : slCheck "\x7ba, b, c, d, e\x7d".toList .unordered 5 = true := by rfl
example : slCheck "\x7ba, b, \x7bc, d, e\x7d, d, e\x7d".toList .unordered 5 = true := by rfl
example : slCheck "\x7ba, b, \x7bc, [d, e, f, g, h], e\x7d, d, e\x7d".toList .unordered 5 = true := by rfl
example : slCheck "\x7ba, b, \x7bc, [d, e, f, g, h], e\x7d, d, [e, f, g, \x7bh, i, j, k\x7d]\x7d".toList .unordered 5 = true := by rfl
example : slCheck "\x7bname, button_text, description, rules\x7d".toList .unordered 4 = true := by rfl
example : slCheck "\x7bname, button_text (optional), description (optional), rules\x7d".toList .unordered 4 = true := by rfl
example : slCheck "\x7bstatus (n >= 0)\x7d".toList .unordered 1 = true := by rfl
example : slCheck "[name, button_text, description, rules]".toList .ordered 4 = true := by rfl
example : slCheck "[name, button_text (optional), description (optional), rules]".toList .ordered 4 = true := by rfl
example : slCheck "[status (n >= 0)]".toList .ordered 1 = true := by rfl
example : slCheck "[ \x7bimage / video / audio\x7d, caption ]".toList .ordered 2 = true := by rfl
example : slFails "\x7ba,, b, c\x7d".toList = true := by rfl
example : slFails "\x7ba,,, b, c\x7d".toList = true := by rfl
example : slFails "\x7ba,/ b, c\x7d".toList = true := by rfl
example : slFails "\x7ba,,/ b, c\x7d".toList = true := by rfl
example : slFails "\x7ba, b / c\x7d".toList = true := by rfl
example : slFails "\x7ba / b, c\x7d".toList = true := by rfl
example : slFails "\x7ba, b, ] c, d, e\x7d".toList = true := by rfl
example : slFails "\x7ba, b; c, d, e\x7d".toList = true := by rfl
example : slFails "\x7bname, button_text (optional) (optional), description (optional), rules\x7d".toList = true := by rfl
example : slFails "\x7bname, button_text (optional) (), description (optional), rules\x7d".toList = true := by rfl
example : slFails "\x7bname, button_text (optional)), description (optional), rules\x7d".toList = true := by rfl
example : slFails "\x7bname, button_text ((optional)), description (optional), rules\x7d".toList = true := by rfl
example : slFails "\x7bname, button_text \x7boptional\x7d, description (optional), rules\x7d".toList = true := by rfl
example : slFails "\x7bname, button_text [optional], description (optional), rules\x7d".toList = true := by rfl

/-- Rendered positions are nonempty strings of decimal digits: together with
the digit-free property of the three offset-free message families, this is
what makes "the message includes the character offset" precise. -/
theorem natToChars_digits (n : Nat) :
    natToChars n ≠ [] ∧ (natToChars n).all Char.isDigit = true := by
  have gen : ∀ fuel m, m < fuel →
      natToCharsAux fuel m ≠ [] ∧ (natToCharsAux fuel m).all Char.isDigit = true := by
    intro fuel
    induction fuel with
    | zero =>
        intro m hm
        exact absurd hm (Nat.not_lt_zero m)
    | succ fuel ih =>
        intro m hm
        rw [natToCharsAux]
        by_cases h10 : m < 10
        · rw [if_pos h10]
          refine ⟨by simp, ?_⟩
          interval_cases m <;> decide
        · rw [if_neg h10]
          have hdiv : m / 10 < fuel := by
            have h1 : m / 10 < m := Nat.div_lt_self
              (Nat.lt_of_lt_of_le (by decide) (Nat.le_of_not_lt h10)) (by decide)
            omega
          have hrec := ih (m / 10) hdiv
          refine ⟨by simp, ?_⟩
          rw [List.all_append, hrec.2]
          simp only [List.all_cons, List.all_nil, Bool.and_true, Bool.true_and]
          have hlt : m % 10 < 10 := Nat.mod_lt m (by decide)
          set k := m % 10 with hk
          interval_cases k <;> decide
  exact gen (n + 1) n (Nat.lt_succ_self n)

end Schemata

